import Mathlib

/-!
# ArtNet: universe addressing, port mapping and the ArtPollReply encoder

A shallow embedding of `Artnet/Types.h` and `Artnet/ArtPollReply.h`.

Conventions of the embedding
* `uint8_t` / `uint16_t` values are natural numbers.  A value is reduced modulo
  `2^8` (`u8`) or `2^16` (`u16`) where C++ converts it to that type: at a
  constructor parameter and at every store into a byte of the reply.
* `Packet` is the `b[239]` view of the union; every named member is a byte
  range of that view, at the offset given by the declaration order of the
  anonymous struct (all members are `uint8_t`, so there is no padding).
* A local `Packet r;` starts with indeterminate contents; they are the
  `garbage` argument of `generatePacketFrom`.
* A `memcpy` whose destination range leaves the 239 bytes of the object writes
  outside the local `Packet`: the call has no defined result, and
  `generatePacketFrom` returns `none`.
-/

namespace art_net

/-! ## Machine integers -/

/-- Conversion to `uint8_t`. -/
def u8 (x : Nat) : Nat := x % 256

/-- Conversion to `uint16_t`. -/
def u16 (x : Nat) : Nat := x % 65536

/-- Read element `k` of a C array of `n` bytes (0 outside the array). -/
def arr {n : Nat} (a : Fin n → Nat) (k : Nat) : Nat :=
  if h : k < n then a ⟨k, h⟩ else 0

/-! ## Types.h -/

/-- The struct `UniverseDescriptor` of Types.h. -/
structure UniverseDescriptor where
  /-- Field `uint8_t net`, documented as the 7-bit net (0-127). -/
  net : Nat
  /-- Field `uint8_t subnet`, documented as the 4-bit subnet (0-15). -/
  subnet : Nat
  /-- Field `uint8_t universe`, documented as the 4-bit universe (0-15); `universe`
  is a reserved word of Lean, hence the underscore. -/
  universe_ : Nat
  /-- Field `uint16_t universe15bit`, the combined identifier. -/
  universe15bit : Nat
deriving DecidableEq, Repr

namespace UniverseDescriptor

/-- The default constructor `UniverseDescriptor()`. -/
def init : UniverseDescriptor :=
  { net := 0, subnet := 0, universe_ := 0, universe15bit := 0 }

/-- The constructor `UniverseDescriptor(uint8_t n, uint8_t s, uint8_t u)`. -/
def ofTriple (n s u : Nat) : UniverseDescriptor :=
  { net := u8 n
    subnet := u8 s
    universe_ := u8 u
    universe15bit := u16 ((u16 (u8 n) <<< 8) ||| (u16 (u8 s) <<< 4) ||| u16 (u8 u)) }

/-- The constructor `UniverseDescriptor(uint16_t universe_15bit)`. -/
def ofUniverse15bit (universe_15bit : Nat) : UniverseDescriptor :=
  { net := u8 ((u16 universe_15bit >>> 8) &&& 0x7F)
    subnet := u8 ((u16 universe_15bit >>> 4) &&& 0x0F)
    universe_ := u8 (u16 universe_15bit &&& 0x0F)
    universe15bit := u16 universe_15bit }

/-- The member `operator<`: order by `universe15bit`. -/
def lt (a other : UniverseDescriptor) : Bool :=
  decide (a.universe15bit < other.universe15bit)

/-- The member `operator==`: equality of `universe15bit`. -/
def eq (a other : UniverseDescriptor) : Bool :=
  decide (a.universe15bit = other.universe15bit)

end UniverseDescriptor

/-- The struct `PortConfiguration` of Types.h. -/
structure PortConfiguration where
  /-- Field `uint8_t port_index`. -/
  port_index : Nat
  /-- Field `UniverseDescriptor universe`. -/
  universe_ : UniverseDescriptor
  /-- Field `bool input_enabled`. -/
  input_enabled : Bool
  /-- Field `bool output_enabled`. -/
  output_enabled : Bool
  /-- Field `uint8_t sw_in`. -/
  sw_in : Nat
  /-- Field `uint8_t sw_out`. -/
  sw_out : Nat
deriving DecidableEq, Repr

namespace PortConfiguration

/-- The default constructor `PortConfiguration()`. -/
def init : PortConfiguration :=
  { port_index := 0, universe_ := UniverseDescriptor.init, input_enabled := false,
    output_enabled := false, sw_in := 0, sw_out := 0 }

/-- The constructor `PortConfiguration(uint8_t idx, const UniverseDescriptor& univ,
bool in, bool out)`. -/
def ofUniverse (idx : Nat) (univ : UniverseDescriptor) (inp out : Bool) : PortConfiguration :=
  { port_index := u8 idx, universe_ := univ, input_enabled := inp, output_enabled := out,
    sw_in := univ.universe_, sw_out := univ.universe_ }

end PortConfiguration

/-- The struct `PortMappingResult` of Types.h; `ports` is the array `ports[4]`. -/
structure PortMappingResult where
  /-- Field `uint8_t num_ports`. -/
  num_ports : Nat
  /-- Field `PortConfiguration ports[4]`. -/
  ports : Fin 4 → PortConfiguration
  /-- Field `bool has_subscriptions`. -/
  has_subscriptions : Bool

namespace PortMappingResult

/-- The default constructor `PortMappingResult()`. -/
def init : PortMappingResult :=
  { num_ports := 0, ports := fun _ => PortConfiguration.init, has_subscriptions := false }

end PortMappingResult

/-! ## ArtPollReply.h: the reply buffer -/

namespace art_poll_reply

/-- The constant `NUM_POLLREPLY_PUBLIC_PORT_LIMIT`. -/
@[simp] def NUM_POLLREPLY_PUBLIC_PORT_LIMIT : Nat := 4

/-- The size of the union `Packet`, the extent of its member `b[239]`. -/
@[simp] def PACKET_SIZE : Nat := 239

/-- The union `Packet`, seen through its member `uint8_t b[239]`. -/
structure Packet where
  /-- The bytes `b[0]`, ..., `b[238]`. -/
  b : List Nat
  /-- The array has 239 elements. -/
  size_eq : b.length = PACKET_SIZE

instance : DecidableEq Packet := fun r s =>
  match r, s with
  | ⟨b1, _⟩, ⟨b2, _⟩ =>
    if h : b1 = b2 then isTrue (by subst h; rfl)
    else isFalse (fun e => h (congrArg Packet.b e))

/-! Offsets of the members of the anonymous struct, in declaration order. -/

/-- Offset of `id[8]`. -/
@[simp] def OFF_id : Nat := 0
/-- Offset of `op_code_l`. -/
@[simp] def OFF_op_code_l : Nat := OFF_id + 8
/-- Offset of `op_code_h`. -/
@[simp] def OFF_op_code_h : Nat := OFF_op_code_l + 1
/-- Offset of `ip[4]`. -/
@[simp] def OFF_ip : Nat := OFF_op_code_h + 1
/-- Offset of `port_l`. -/
@[simp] def OFF_port_l : Nat := OFF_ip + 4
/-- Offset of `port_h`. -/
@[simp] def OFF_port_h : Nat := OFF_port_l + 1
/-- Offset of `ver_h`. -/
@[simp] def OFF_ver_h : Nat := OFF_port_h + 1
/-- Offset of `ver_l`. -/
@[simp] def OFF_ver_l : Nat := OFF_ver_h + 1
/-- Offset of `net_sw`. -/
@[simp] def OFF_net_sw : Nat := OFF_ver_l + 1
/-- Offset of `sub_sw`. -/
@[simp] def OFF_sub_sw : Nat := OFF_net_sw + 1
/-- Offset of `oem_h`. -/
@[simp] def OFF_oem_h : Nat := OFF_sub_sw + 1
/-- Offset of `oem_l`. -/
@[simp] def OFF_oem_l : Nat := OFF_oem_h + 1
/-- Offset of `ubea_ver`. -/
@[simp] def OFF_ubea_ver : Nat := OFF_oem_l + 1
/-- Offset of `status_1`. -/
@[simp] def OFF_status_1 : Nat := OFF_ubea_ver + 1
/-- Offset of `esta_man_l`. -/
@[simp] def OFF_esta_man_l : Nat := OFF_status_1 + 1
/-- Offset of `esta_man_h`. -/
@[simp] def OFF_esta_man_h : Nat := OFF_esta_man_l + 1
/-- Offset of `short_name[18]`. -/
@[simp] def OFF_short_name : Nat := OFF_esta_man_h + 1
/-- Offset of `long_name[64]`. -/
@[simp] def OFF_long_name : Nat := OFF_short_name + 18
/-- Offset of `node_report[64]`. -/
@[simp] def OFF_node_report : Nat := OFF_long_name + 64
/-- Offset of `num_ports_h`. -/
@[simp] def OFF_num_ports_h : Nat := OFF_node_report + 64
/-- Offset of `num_ports_l`. -/
@[simp] def OFF_num_ports_l : Nat := OFF_num_ports_h + 1
/-- Offset of `port_types[4]`. -/
@[simp] def OFF_port_types : Nat := OFF_num_ports_l + 1
/-- Offset of `good_input[4]`. -/
@[simp] def OFF_good_input : Nat := OFF_port_types + NUM_POLLREPLY_PUBLIC_PORT_LIMIT
/-- Offset of `good_output[4]`. -/
@[simp] def OFF_good_output : Nat := OFF_good_input + NUM_POLLREPLY_PUBLIC_PORT_LIMIT
/-- Offset of `sw_in[4]`. -/
@[simp] def OFF_sw_in : Nat := OFF_good_output + NUM_POLLREPLY_PUBLIC_PORT_LIMIT
/-- Offset of `sw_out[4]`. -/
@[simp] def OFF_sw_out : Nat := OFF_sw_in + NUM_POLLREPLY_PUBLIC_PORT_LIMIT
/-- Offset of `sw_video`. -/
@[simp] def OFF_sw_video : Nat := OFF_sw_out + NUM_POLLREPLY_PUBLIC_PORT_LIMIT
/-- Offset of `sw_macro`. -/
@[simp] def OFF_sw_macro : Nat := OFF_sw_video + 1
/-- Offset of `sw_remote`. -/
@[simp] def OFF_sw_remote : Nat := OFF_sw_macro + 1
/-- Offset of `spare[3]`. -/
@[simp] def OFF_spare : Nat := OFF_sw_remote + 1
/-- Offset of `style`. -/
@[simp] def OFF_style : Nat := OFF_spare + 3
/-- Offset of `mac[6]`. -/
@[simp] def OFF_mac : Nat := OFF_style + 1
/-- Offset of `bind_ip[4]`. -/
@[simp] def OFF_bind_ip : Nat := OFF_mac + 6
/-- Offset of `bind_index`. -/
@[simp] def OFF_bind_index : Nat := OFF_bind_ip + 4
/-- Offset of `status_2`. -/
@[simp] def OFF_status_2 : Nat := OFF_bind_index + 1
/-- Offset of `filler[26]`. -/
@[simp] def OFF_filler : Nat := OFF_status_2 + 1
/-- The end of the anonymous struct. -/
@[simp] def OFF_end : Nat := OFF_filler + 26

namespace Packet

/-- A local `Packet r;` before any assignment: indeterminate bytes. -/
def uninitialized (garbage : Nat → Nat) : Packet :=
  { b := (List.range PACKET_SIZE).map (fun i => u8 (garbage i))
    size_eq := by simp }

/-- Read `r.b[i]`. -/
def byte (r : Packet) (i : Nat) : Nat := r.b.getD i 0

/-- The `w` bytes of `r` from offset `off`: an array member. -/
def field (r : Packet) (off w : Nat) : List Nat := (r.b.drop off).take w

/-- Assign `v` to the byte at offset `off` (a `uint8_t` lvalue inside the object). -/
def store (r : Packet) (off v : Nat) : Packet :=
  { b := r.b.set off (u8 v)
    size_eq := by rw [List.length_set]; exact r.size_eq }

/-- The call `memset(r.member, val, n)`, the member starting at offset `off`. -/
def memset (r : Packet) (off val n : Nat) : Packet :=
  (List.range n).foldl (fun r k => r.store (off + k) val) r

/-- Copy `n` bytes from `src` to the offsets `off`, `off + 1`, ... of the flat view `b`,
byte after byte: a copy longer than the member at `off` runs on into the members
declared after it.  `memcpy` copies this way only a range that lies inside the object. -/
def copyBytes (r : Packet) (off : Nat) (src : Nat → Nat) (n : Nat) : Packet :=
  (List.range n).foldl (fun r k => r.store (off + k) (src k)) r

/-- The call `memcpy(r.member, src, n)`, the member starting at offset `off`.  The call
does not bound `n` by the width of the member.  While the destination range
`off .. off + n - 1` lies inside the object the bytes are copied through the flat view;
when it leaves the 239 bytes of the object the call writes outside the local `Packet` and
has no defined result: `none`. -/
def memcpy (r : Packet) (off : Nat) (src : Nat → Nat) (n : Nat) : Option Packet :=
  if off + n ≤ PACKET_SIZE then some (r.copyBytes off src n) else none

end Packet

/-! ## ArtPollReply.h: the encoder -/

/-- Modelled from the spec: the constant `ID_LENGTH` of Common.h, which is not
among the sources; the reply starts with the protocol's fixed 8-byte identifier,
the extent of `id[8]`. -/
@[simp] def ID_LENGTH : Nat := 8

/-- The other names that `generatePacketFrom` takes from Common.h, which is not
among the sources; they are parameters of the encoder. -/
structure Common where
  /-- The table `ARTNET_ID`, read at the indices below `ID_LENGTH`. -/
  ARTNET_ID : Nat → Nat
  /-- The enumerator `OpCode::PollReply`. -/
  OpCode_PollReply : Nat
  /-- The constant `DEFAULT_PORT`. -/
  DEFAULT_PORT : Nat
  /-- The constant `PROTOCOL_VER`. -/
  PROTOCOL_VER : Nat

/-- The caller's `IPAddress`: four address bytes read with `operator[]`. -/
structure IPAddress where
  /-- Member `uint8_t _address[4]`. -/
  _address : Fin 4 → Nat

/-- The member `operator[]` of `IPAddress`. -/
def IPAddress.get (ip : IPAddress) (index : Nat) : Nat := arr ip._address index

/-- The struct `Config`; a `String` is the list of its bytes (`length()` is the
length of the list and `c_str()` points at these bytes). -/
structure Config where
  /-- Field `uint16_t oem`. -/
  oem : Nat
  /-- Field `uint16_t esta_man`. -/
  esta_man : Nat
  /-- Field `uint8_t status1`. -/
  status1 : Nat
  /-- Field `uint8_t status2`. -/
  status2 : Nat
  /-- Field `String short_name`. -/
  short_name : List Nat
  /-- Field `String long_name`. -/
  long_name : List Nat
  /-- Field `String node_report`. -/
  node_report : List Nat
  /-- Field `uint8_t sw_in[4]`. -/
  sw_in : Fin 4 → Nat

/-- The bytes of an ASCII text. -/
def textBytes (s : String) : List Nat := s.toList.map Char.toNat

/-- The default member initialisers of `Config`. -/
def Config.init : Config :=
  { oem := 0x00FF, esta_man := 0x0000, status1 := 0x00, status2 := 0x08,
    short_name := textBytes "Arduino ArtNet",
    long_name := textBytes "Arduino ArtNet Protocol by hideakitai/ArtNet",
    node_report := [],
    sw_in := fun _ => 0 }

/-- The byte that `c_str()` yields at index `k`. -/
def c_str (s : List Nat) (k : Nat) : Nat := s.getD k 0

/-- The body of the loop over the reported ports, for index `i` and `port = ports[i]`. -/
def configurePort (r : Packet) (i : Nat) (port : PortConfiguration) : Packet :=
  let r := r.store (OFF_sw_in + i) (port.sw_in &&& 0x0F)
  let r := r.store (OFF_sw_out + i) (port.sw_out &&& 0x0F)
  let r :=
    if port.input_enabled && port.output_enabled then r.store (OFF_port_types + i) 0xC0
    else if port.input_enabled then r.store (OFF_port_types + i) 0x80
    else if port.output_enabled then r.store (OFF_port_types + i) 0x40
    else r.store (OFF_port_types + i) 0x00
  let r := r.store (OFF_good_input + i) (if port.input_enabled then 0x80 else 0x00)
  let r := r.store (OFF_good_output + i) (if port.output_enabled then 0x80 else 0x00)
  r

/-- The loop `for (uint8_t i = 0; i < port_mapping.num_ports && i < 4; ++i)`, from
index `i` on; `fuel` bounds the number of iterations still to run. -/
def configurePorts (port_mapping : PortMappingResult) : Nat → Nat → Packet → Packet
  | 0, _, r => r
  | fuel + 1, i, r =>
    if h : i < port_mapping.num_ports ∧ i < 4 then
      configurePorts port_mapping fuel (i + 1) (configurePort r i (port_mapping.ports ⟨i, h.2⟩))
    else r

/-- The function `generatePacketFrom`; `garbage` is the indeterminate content of the
local `Packet r` before its first assignment.  The result is `none` when a `memcpy` leaves
the object, which the three text copies do for a `short_name` of more than 213 bytes, a
`long_name` of more than 195 bytes or a `node_report` of more than 131 bytes. -/
def generatePacketFrom (c : Common) (garbage : Nat → Nat) (my_ip : IPAddress)
    (my_mac : Fin 6 → Nat) (port_mapping : PortMappingResult) (metadata : Config) :
    Option Packet := do
  let r := Packet.uninitialized garbage
  let r := (List.range ID_LENGTH).foldl (fun r i => r.store (OFF_id + i) (c.ARTNET_ID i)) r
  let r := r.store OFF_op_code_l ((u16 c.OpCode_PollReply >>> 0) &&& 0x00FF)
  let r := r.store OFF_op_code_h ((u16 c.OpCode_PollReply >>> 8) &&& 0x00FF)
  let r ← r.memcpy OFF_mac (arr my_mac) 6
  let r := (List.range 4).foldl (fun r i => r.store (OFF_ip + i) (my_ip.get i)) r
  let r := r.store OFF_port_h ((c.DEFAULT_PORT >>> 8) &&& 0xFF)
  let r := r.store OFF_port_l ((c.DEFAULT_PORT >>> 0) &&& 0xFF)
  let r := r.store OFF_ver_h ((c.PROTOCOL_VER >>> 8) &&& 0x00FF)
  let r := r.store OFF_ver_l ((c.PROTOCOL_VER >>> 0) &&& 0x00FF)
  let r := r.store OFF_oem_h ((metadata.oem >>> 8) &&& 0xFF)
  let r := r.store OFF_oem_l ((metadata.oem >>> 0) &&& 0xFF)
  let r := r.store OFF_ubea_ver 0
  let r := r.store OFF_status_1 metadata.status1
  let r := r.store OFF_esta_man_h ((metadata.esta_man >>> 8) &&& 0xFF)
  let r := r.store OFF_esta_man_l ((metadata.esta_man >>> 0) &&& 0xFF)
  let r := r.memset OFF_short_name 0 18
  let r := r.memset OFF_long_name 0 64
  let r := r.memset OFF_node_report 0 64
  let r ← r.memcpy OFF_short_name (c_str metadata.short_name) metadata.short_name.length
  let r ← r.memcpy OFF_long_name (c_str metadata.long_name) metadata.long_name.length
  let r ← r.memcpy OFF_node_report (c_str metadata.node_report) metadata.node_report.length
  let r := r.store OFF_num_ports_h 0
  let r := r.store OFF_num_ports_l port_mapping.num_ports
  let r := r.memset OFF_sw_in 0 4
  let r := r.memset OFF_sw_out 0 4
  let r := r.memset OFF_port_types 0 4
  let r := r.memset OFF_good_input 0 4
  let r := r.memset OFF_good_output 0 4
  let primary_universe : Nat :=
    if port_mapping.num_ports > 0 then (port_mapping.ports 0).universe_.universe15bit else 0
  let r := r.store OFF_net_sw ((primary_universe >>> 8) &&& 0x7F)
  let r := r.store OFF_sub_sw ((primary_universe >>> 4) &&& 0x0F)
  let r := configurePorts port_mapping 4 0 r
  let r :=
    if port_mapping.num_ports = 0 then
      (List.range 4).foldl (fun r i => r.store (OFF_sw_in + i) (arr metadata.sw_in i &&& 0x0F)) r
    else r
  let r := r.store OFF_sw_video 0
  let r := r.store OFF_sw_macro 0
  let r := r.store OFF_sw_remote 0
  let r := r.memset OFF_spare 0x00 3
  let r := r.store OFF_style 0x00
  let r := (List.range 4).foldl (fun r i => r.store (OFF_bind_ip + i) (my_ip.get i)) r
  let r := r.store OFF_bind_index 0
  let r := r.store OFF_status_2 metadata.status2
  let r := r.memset OFF_filler 0x00 26
  return r

/-- The packet that `generatePacketFrom` returns when no `memcpy` leaves the object: the
same assignments in the same order, the copies made with `copyBytes`.  It is related to
`generatePacketFrom` by `generatePacketFrom_eq_some` and serves the proofs only. -/
def replyBytes (c : Common) (garbage : Nat → Nat) (my_ip : IPAddress)
    (my_mac : Fin 6 → Nat) (port_mapping : PortMappingResult) (metadata : Config) : Packet :=
  let r := Packet.uninitialized garbage
  let r := (List.range ID_LENGTH).foldl (fun r i => r.store (OFF_id + i) (c.ARTNET_ID i)) r
  let r := r.store OFF_op_code_l ((u16 c.OpCode_PollReply >>> 0) &&& 0x00FF)
  let r := r.store OFF_op_code_h ((u16 c.OpCode_PollReply >>> 8) &&& 0x00FF)
  let r := r.copyBytes OFF_mac (arr my_mac) 6
  let r := (List.range 4).foldl (fun r i => r.store (OFF_ip + i) (my_ip.get i)) r
  let r := r.store OFF_port_h ((c.DEFAULT_PORT >>> 8) &&& 0xFF)
  let r := r.store OFF_port_l ((c.DEFAULT_PORT >>> 0) &&& 0xFF)
  let r := r.store OFF_ver_h ((c.PROTOCOL_VER >>> 8) &&& 0x00FF)
  let r := r.store OFF_ver_l ((c.PROTOCOL_VER >>> 0) &&& 0x00FF)
  let r := r.store OFF_oem_h ((metadata.oem >>> 8) &&& 0xFF)
  let r := r.store OFF_oem_l ((metadata.oem >>> 0) &&& 0xFF)
  let r := r.store OFF_ubea_ver 0
  let r := r.store OFF_status_1 metadata.status1
  let r := r.store OFF_esta_man_h ((metadata.esta_man >>> 8) &&& 0xFF)
  let r := r.store OFF_esta_man_l ((metadata.esta_man >>> 0) &&& 0xFF)
  let r := r.memset OFF_short_name 0 18
  let r := r.memset OFF_long_name 0 64
  let r := r.memset OFF_node_report 0 64
  let r := r.copyBytes OFF_short_name (c_str metadata.short_name) metadata.short_name.length
  let r := r.copyBytes OFF_long_name (c_str metadata.long_name) metadata.long_name.length
  let r := r.copyBytes OFF_node_report (c_str metadata.node_report) metadata.node_report.length
  let r := r.store OFF_num_ports_h 0
  let r := r.store OFF_num_ports_l port_mapping.num_ports
  let r := r.memset OFF_sw_in 0 4
  let r := r.memset OFF_sw_out 0 4
  let r := r.memset OFF_port_types 0 4
  let r := r.memset OFF_good_input 0 4
  let r := r.memset OFF_good_output 0 4
  let primary_universe : Nat :=
    if port_mapping.num_ports > 0 then (port_mapping.ports 0).universe_.universe15bit else 0
  let r := r.store OFF_net_sw ((primary_universe >>> 8) &&& 0x7F)
  let r := r.store OFF_sub_sw ((primary_universe >>> 4) &&& 0x0F)
  let r := configurePorts port_mapping 4 0 r
  let r :=
    if port_mapping.num_ports = 0 then
      (List.range 4).foldl (fun r i => r.store (OFF_sw_in + i) (arr metadata.sw_in i &&& 0x0F)) r
    else r
  let r := r.store OFF_sw_video 0
  let r := r.store OFF_sw_macro 0
  let r := r.store OFF_sw_remote 0
  let r := r.memset OFF_spare 0x00 3
  let r := r.store OFF_style 0x00
  let r := (List.range 4).foldl (fun r i => r.store (OFF_bind_ip + i) (my_ip.get i)) r
  let r := r.store OFF_bind_index 0
  let r := r.store OFF_status_2 metadata.status2
  let r := r.memset OFF_filler 0x00 26
  r

/-! Named members of a reply. -/

namespace Packet

/-- Element `port_types[i]`. -/
def port_types (r : Packet) (i : Nat) : Nat := r.byte (OFF_port_types + i)
/-- Element `good_input[i]`. -/
def good_input (r : Packet) (i : Nat) : Nat := r.byte (OFF_good_input + i)
/-- Element `good_output[i]`. -/
def good_output (r : Packet) (i : Nat) : Nat := r.byte (OFF_good_output + i)
/-- Element `sw_in[i]`. -/
def sw_in (r : Packet) (i : Nat) : Nat := r.byte (OFF_sw_in + i)
/-- Element `sw_out[i]`. -/
def sw_out (r : Packet) (i : Nat) : Nat := r.byte (OFF_sw_out + i)
/-- Member `short_name[18]`. -/
def short_name (r : Packet) : List Nat := r.field OFF_short_name 18
/-- Member `long_name[64]`. -/
def long_name (r : Packet) : List Nat := r.field OFF_long_name 64
/-- Member `node_report[64]`. -/
def node_report (r : Packet) : List Nat := r.field OFF_node_report 64

end Packet

end art_poll_reply

end art_net

namespace art_net.art_poll_reply

/-- The port-type code that `configurePort` stores for a port. -/
def portTypeCode (port : PortConfiguration) : Nat :=
  if port.input_enabled && port.output_enabled then 0xC0
  else if port.input_enabled then 0x80
  else if port.output_enabled then 0x40
  else 0x00

/-- Element `ports[k]`, for any index (the default port outside the array). -/
def portAt (pm : PortMappingResult) (k : Nat) : PortConfiguration :=
  if h : k < 4 then pm.ports ⟨k, h⟩ else PortConfiguration.init

/-- One turn of the loop over the ports: the guard, then the body. -/
def portStep (pm : PortMappingResult) (k : Nat) (r : Packet) : Packet :=
  if k < pm.num_ports ∧ k < 4 then configurePort r k (portAt pm k) else r

/-- Every element of a list is a byte. -/
def IsBytes (s : List Nat) : Prop := ∀ x ∈ s, x < 256

instance (s : List Nat) : Decidable (IsBytes s) := by
  unfold IsBytes; infer_instance

/-! Inputs of the validation test, used to evaluate the encoder. -/

/-- Values for the names of Common.h: the Art-Net identifier, the poll-reply
opcode, the UDP port and the protocol version. -/
def sampleCommon : Common :=
  { ARTNET_ID := c_str (textBytes "Art-Net"), OpCode_PollReply := 0x2100,
    DEFAULT_PORT := 0x1936, PROTOCOL_VER := 14 }

/-- Indeterminate stack content. -/
def sampleGarbage : Nat → Nat := fun i => 0xA5 + i

/-- The address `test_ip(192, 168, 1, 100)`. -/
def sampleIP : IPAddress := { _address := fun i => [192, 168, 1, 100].getD i.val 0 }

/-- The array `test_mac`. -/
def sampleMac : Fin 6 → Nat := fun i => i.val

/-- The `config` of the test. -/
def sampleConfig : Config :=
  { Config.init with
    short_name := textBytes "Test Node"
    long_name := textBytes "Test ArtNet Node for Validation" }

/-- A mapping of two ports built with the constructors: universes 0x0123 (input and
output) and 0x0127 (input only). -/
def sampleMapping : PortMappingResult :=
  { num_ports := 2
    ports := fun i =>
      if i.val = 0 then
        PortConfiguration.ofUniverse 0 (UniverseDescriptor.ofUniverse15bit 0x0123) true true
      else if i.val = 1 then
        PortConfiguration.ofUniverse 1 (UniverseDescriptor.ofTriple 1 2 7) true false
      else PortConfiguration.init
    has_subscriptions := true }

/-- A configuration whose unused `sw_in` nibbles are 5. -/
def legacyConfig : Config := { Config.init with sw_in := fun _ => 5 }

/-- A configuration whose short name has 18 bytes, the width of `short_name[18]`. -/
def longNameConfig : Config :=
  { Config.init with short_name := textBytes "ABCDEFGHIJKLMNOPQR" }

end art_net.art_poll_reply

namespace art_net

/-! ## Receiver.h: the universe registry and its port allocation

Receiver.h is not among the sources; the registry and `generatePortMapping` are
modelled from the specification (its sections 3, 4.1 and 4.2). -/

/-- The key of a block: `(net, subnet, universe / 4)`. -/
abbrev BlockKey := Nat × Nat × Nat

/-- The key of a parent: `(net, subnet)`. -/
abbrev ParentKey := Nat × Nat

/-- Modelled from the spec: the block of an address, "a block key is
`(net, subnet, universeNibble / 4)`"; Receiver.h, which computes it, is not among the
sources. -/
def blockKey (a : UniverseDescriptor) : BlockKey := (a.net, a.subnet, a.universe_ / 4)

/-- Modelled from the spec: the parent `(net, subnet)` of an address; Receiver.h is not
among the sources. -/
def parentKey (a : UniverseDescriptor) : ParentKey := (a.net, a.subnet)

/-- The parent of a block. -/
def BlockKey.parent (k : BlockKey) : ParentKey := (k.1, k.2.1)

/-- Ascending order of blocks: by net, then subnet, then block index. -/
def BlockKey.le (k l : BlockKey) : Prop :=
  k.1 < l.1 ∨ (k.1 = l.1 ∧ (k.2.1 < l.2.1 ∨ (k.2.1 = l.2.1 ∧ k.2.2 ≤ l.2.2)))

instance : DecidableRel BlockKey.le := fun k l => by
  unfold BlockKey.le; infer_instance

/-- Ascending order of parents: by net, then subnet. -/
def ParentKey.le (p q : ParentKey) : Prop := p.1 < q.1 ∨ (p.1 = q.1 ∧ p.2 ≤ q.2)

instance : DecidableRel ParentKey.le := fun p q => by
  unfold ParentKey.le; infer_instance

/-- Ascending order of addresses by `universe15bit`, the order of `operator<`. -/
def UniverseDescriptor.le (a b : UniverseDescriptor) : Prop :=
  a.universe15bit ≤ b.universe15bit

instance : DecidableRel UniverseDescriptor.le := fun a b => by
  unfold UniverseDescriptor.le; infer_instance

/-- Modelled from the spec: the class `UniverseRegistry` of Receiver.h, which is not among
the sources: "a mutable collection of currently-subscribed universe addresses", "a set
keyed by combined address".  The two flags are the port role that the allocator gives to
every slot (step 5 of the allocation, a configuration point). -/
structure UniverseRegistry where
  /-- The registered addresses, in registration order. -/
  universes : List UniverseDescriptor
  /-- The role given to the slots: input. -/
  input_enabled : Bool
  /-- The role given to the slots: output. -/
  output_enabled : Bool

namespace UniverseRegistry

/-- Modelled from the spec: a registry with nothing registered (Receiver.h is not among
the sources). -/
def empty (inp out : Bool) : UniverseRegistry :=
  { universes := [], input_enabled := inp, output_enabled := out }

/-- Modelled from the spec: `register(address)` "inserts `address` if absent; idempotent";
Receiver.h is not among the sources.  Presence is by `operator==`. -/
def registerUniverse (reg : UniverseRegistry) (a : UniverseDescriptor) : UniverseRegistry :=
  if reg.universes.any (fun e => e.eq a) then reg
  else { reg with universes := reg.universes ++ [a] }

/-- Modelled from the spec: `snapshot()`, "an immutable ordered view of all registered
addresses, ordered ascending by `combined`"; Receiver.h is not among the sources. -/
def snapshot (reg : UniverseRegistry) : List UniverseDescriptor :=
  reg.universes.insertionSort UniverseDescriptor.le

/-- Modelled from the spec: the distinct blocks of a snapshot "in ascending
`(net, subnet, blockIndex)` order"; Receiver.h is not among the sources. -/
def blockKeys (snap : List UniverseDescriptor) : List BlockKey :=
  ((snap.map blockKey).dedup).insertionSort BlockKey.le

/-- Modelled from the spec: a block's representative address, "the minimum
(`combined`-ascending) subscribed address within that block": the first one in the
ascending snapshot.  Receiver.h is not among the sources. -/
def representative (snap : List UniverseDescriptor) (k : BlockKey) : Option UniverseDescriptor :=
  snap.find? (fun a => decide (blockKey a = k))

/-- Modelled from the spec: the parents of the blocks, "order parents ascending";
Receiver.h is not among the sources. -/
def parents (keys : List BlockKey) : List ParentKey :=
  ((keys.map BlockKey.parent).dedup).insertionSort ParentKey.le

/-- Modelled from the spec: the blocks of one parent, in the ascending order of `keys`
("order each parent's blocks ascending by `blockIndex`"); Receiver.h is not among the
sources. -/
def parentBlocks (keys : List BlockKey) (p : ParentKey) : List BlockKey :=
  keys.filter (fun k => decide (k.parent = p))

/-- Modelled from the spec: one rotation, "the next not-yet-taken block from each parent";
Receiver.h is not among the sources. -/
def takeRound (groups : List (List BlockKey)) : List BlockKey :=
  groups.filterMap List.head?

/-- Modelled from the spec: the blocks in the order in which the rotation over the parents
takes them, for `fuel` rotations; Receiver.h is not among the sources. -/
def rotation : Nat → List (List BlockKey) → List BlockKey
  | 0, _ => []
  | fuel + 1, groups => takeRound groups ++ rotation fuel (groups.map List.tail)

/-- Modelled from the spec: steps 3 and 4 of the allocation: all the blocks when there are
at most 4, else the first 4 that the rotation over the parents takes ("until exactly 4
ports are filled or no blocks remain").  No parent has more blocks than `keys.length`, so
that many rotations take every block.  Receiver.h is not among the sources. -/
def selectBlocks (keys : List BlockKey) : List BlockKey :=
  if keys.length ≤ 4 then keys
  else (rotation keys.length ((parents keys).map (parentBlocks keys))).take 4

/-- Modelled from the spec: the slots of a non-empty snapshot, the representatives of the
selected blocks; Receiver.h is not among the sources. -/
def slots (snap : List UniverseDescriptor) : List UniverseDescriptor :=
  (selectBlocks (blockKeys snap)).filterMap (representative snap)

/-- Modelled from the spec: `generatePortMapping`, the allocation of section 4.2;
Receiver.h, which defines it, is not among the sources.  An empty registry gives
"the default single-slot mapping for universe 0 with `hasSubscriptions = false`"; the
slots are built with the constructor `PortConfiguration(idx, address, in, out)`,
"filling `index` 0..count-1". -/
def generatePortMapping (reg : UniverseRegistry) : PortMappingResult :=
  match reg.snapshot with
  | [] =>
    { num_ports := 1
      ports := fun i =>
        if i.val = 0 then
          PortConfiguration.ofUniverse 0 (UniverseDescriptor.ofUniverse15bit 0)
            reg.input_enabled reg.output_enabled
        else PortConfiguration.init
      has_subscriptions := false }
  | a :: rest =>
    { num_ports := (slots (a :: rest)).length
      ports := fun i =>
        match (slots (a :: rest))[i.val]? with
        | some address =>
          PortConfiguration.ofUniverse i.val address reg.input_enabled reg.output_enabled
        | none => PortConfiguration.init
      has_subscriptions := true }

/-- The number of distinct `(net, subnet, universe / 4)` keys among the registered
addresses. -/
def distinctBlockCount (reg : UniverseRegistry) : Nat :=
  ((reg.universes.map blockKey).dedup).length

/-- The number of distinct `(net, subnet)` parents among the registered addresses. -/
def distinctParentCount (reg : UniverseRegistry) : Nat :=
  ((reg.universes.map parentKey).dedup).length

/-- Register the universes `lo`, `lo + 1`, ..., `lo + n - 1` with `registerUniverse(u)`. -/
def registerRange (reg : UniverseRegistry) (lo n : Nat) : UniverseRegistry :=
  (List.range n).foldl
    (fun reg k => reg.registerUniverse (UniverseDescriptor.ofUniverse15bit (lo + k))) reg

/-- Sixteen universes 0..15 of net 0, subnet 0, registered with
`registerUniverse(0, 0, u)`. -/
def registrySingleSubnet : UniverseRegistry :=
  (List.range 16).foldl
    (fun reg u => reg.registerUniverse (UniverseDescriptor.ofTriple 0 0 u)) (empty true true)

/-- The universes 5, 67 and 128. -/
def registrySparse : UniverseRegistry :=
  (((empty true true).registerUniverse (UniverseDescriptor.ofUniverse15bit 5)).registerUniverse
    (UniverseDescriptor.ofUniverse15bit 67)).registerUniverse
    (UniverseDescriptor.ofUniverse15bit 128)

/-- The universes 0..19, registered with `registerUniverse(u)`. -/
def registryCrossSubnet : UniverseRegistry := registerRange (empty true true) 0 20

end UniverseRegistry

end art_net

namespace art_net.art_poll_reply

namespace Packet

/-- Member `port_l`. -/
def port_l (r : Packet) : Nat := r.byte OFF_port_l
/-- Member `port_h`. -/
def port_h (r : Packet) : Nat := r.byte OFF_port_h
/-- Member `oem_h`. -/
def oem_h (r : Packet) : Nat := r.byte OFF_oem_h
/-- Member `oem_l`. -/
def oem_l (r : Packet) : Nat := r.byte OFF_oem_l
/-- Member `esta_man_l`. -/
def esta_man_l (r : Packet) : Nat := r.byte OFF_esta_man_l
/-- Member `esta_man_h`. -/
def esta_man_h (r : Packet) : Nat := r.byte OFF_esta_man_h
/-- Member `mac[6]`. -/
def mac (r : Packet) : List Nat := r.field OFF_mac 6
/-- Member `ip[4]`. -/
def ip (r : Packet) : List Nat := r.field OFF_ip 4
/-- Member `bind_ip[4]`. -/
def bind_ip (r : Packet) : List Nat := r.field OFF_bind_ip 4
end Packet

/-- A configuration with manufacturer code 0x1234 and OEM code 0x5678. -/
def manufacturerConfig : Config := { Config.init with esta_man := 0x1234, oem := 0x5678 }

/-- A configuration whose node report has 94 bytes, all `'X'`. -/
def longReportConfig : Config := { Config.init with node_report := List.replicate 94 0x58 }

end art_net.art_poll_reply

namespace art_net

/-- Lexicographic order of address triples `(net, subnet, universe)`. -/
def tripleLt (n1 s1 u1 n2 s2 u2 : Nat) : Prop :=
  n1 < n2 ∨ (n1 = n2 ∧ (s1 < s2 ∨ (s1 = s2 ∧ u1 < u2)))

instance (n1 s1 u1 n2 s2 u2 : Nat) : Decidable (tripleLt n1 s1 u1 n2 s2 u2) := by
  unfold tripleLt; infer_instance

/-- The expression `(net << 8) | (subnet << 4) | universe` over the fields of an
address. -/
def UniverseDescriptor.combined (d : UniverseDescriptor) : Nat :=
  (d.net <<< 8) ||| (d.subnet <<< 4) ||| d.universe_

end art_net

namespace art_net.art_poll_reply

/-- A configuration whose node report has 132 bytes: copied to offset 108, it ends one
byte past the 239 bytes of the reply. -/
def overrunConfig : Config := { Config.init with node_report := List.replicate 132 0x58 }

end art_net.art_poll_reply

/-! ## Lemmas on the reply buffer -/

namespace art_net.art_poll_reply
open Packet

theorem Packet.byte_store (r : Packet) (off v i : Nat) :
    (r.store off v).byte i = if i = off ∧ off < 239 then u8 v else r.byte i := by
  have hl := r.size_eq
  simp only [PACKET_SIZE] at hl
  unfold Packet.byte Packet.store
  simp only [List.getD_eq_getElem?_getD, List.getElem?_set]
  by_cases h : off = i
  · subst h
    by_cases h2 : off < 239
    · simp [h2, hl]
    · have hn : r.b[off]? = none := List.getElem?_eq_none (by omega)
      simp [h2, hl, hn]
  · have h' : ¬ i = off := fun e => h e.symm
    simp [h, h']

theorem Packet.byte_foldl_store (f : Nat → Nat) (off : Nat) (n : Nat) (r : Packet) (i : Nat) :
    ((List.range n).foldl (fun r k => r.store (off + k) (f k)) r).byte i
      = if off ≤ i ∧ i < off + n ∧ i < 239 then u8 (f (i - off)) else r.byte i := by
  induction n with
  | zero =>
    have : ¬ (off ≤ i ∧ i < off + 0 ∧ i < 239) := by omega
    rw [if_neg this]
    rfl
  | succ n ih =>
    rw [List.range_succ, List.foldl_append]
    simp only [List.foldl_cons, List.foldl_nil, Packet.byte_store, ih]
    by_cases h1 : i = off + n
    · subst h1
      by_cases h2 : off + n < 239
      · simp [h2]
      · simp [h2]
    · by_cases h3 : off ≤ i ∧ i < off + n ∧ i < 239
      · have : off ≤ i ∧ i < off + (n + 1) ∧ i < 239 := ⟨h3.1, by omega, h3.2.2⟩
        simp [h1, h3, this]
      · have : ¬ (off ≤ i ∧ i < off + (n + 1) ∧ i < 239) := by
          intro h; apply h3; exact ⟨h.1, by omega, h.2.2⟩
        simp [h1, h3, this]

theorem Packet.byte_memset (r : Packet) (off val n i : Nat) :
    (r.memset off val n).byte i
      = if off ≤ i ∧ i < off + n ∧ i < 239 then u8 val else r.byte i :=
  Packet.byte_foldl_store (fun _ => val) off n r i

theorem Packet.byte_copyBytes (r : Packet) (off : Nat) (src : Nat → Nat) (n i : Nat) :
    (r.copyBytes off src n).byte i
      = if off ≤ i ∧ i < off + n ∧ i < 239 then u8 (src (i - off)) else r.byte i :=
  Packet.byte_foldl_store src off n r i

theorem configurePort_eq (r : Packet) (i : Nat) (port : PortConfiguration) :
    configurePort r i port =
      ((((r.store (OFF_sw_in + i) (port.sw_in &&& 0x0F)).store (OFF_sw_out + i)
        (port.sw_out &&& 0x0F)).store (OFF_port_types + i) (portTypeCode port)).store
        (OFF_good_input + i) (if port.input_enabled then 0x80 else 0x00)).store
        (OFF_good_output + i) (if port.output_enabled then 0x80 else 0x00) := by
  unfold configurePort portTypeCode
  cases port.input_enabled <;> cases port.output_enabled <;> simp

theorem configurePorts_eq (pm : PortMappingResult) (r : Packet) :
    configurePorts pm 4 0 r = portStep pm 3 (portStep pm 2 (portStep pm 1 (portStep pm 0 r))) := by
  simp only [configurePorts, portStep, portAt]
  by_cases h0 : 0 < pm.num_ports
  · by_cases h1 : 1 < pm.num_ports
    · by_cases h2 : 2 < pm.num_ports
      · by_cases h3 : 3 < pm.num_ports
        · simp [h0, h1, h2, h3]
        · simp [h0, h1, h2, h3]
      · have h3 : ¬ 3 < pm.num_ports := by omega
        simp [h0, h1, h2, h3]
    · have h2 : ¬ 2 < pm.num_ports := by omega
      have h3 : ¬ 3 < pm.num_ports := by omega
      simp [h0, h1, h2, h3]
  · have h1 : ¬ 1 < pm.num_ports := by omega
    have h2 : ¬ 2 < pm.num_ports := by omega
    have h3 : ¬ 3 < pm.num_ports := by omega
    simp [h0, h1, h2, h3]

theorem byte_portStep (pm : PortMappingResult) (k : Nat) (r : Packet) (j : Nat) :
    (portStep pm k r).byte j =
      if k < pm.num_ports ∧ k < 4 then (configurePort r k (portAt pm k)).byte j else r.byte j := by
  unfold portStep
  split <;> rfl

theorem byte_configurePorts_frame (pm : PortMappingResult) (j : Nat) (hj : j < 174 ∨ 194 ≤ j) :
    ∀ (fuel i : Nat) (r : Packet), i + fuel ≤ 4 → (configurePorts pm fuel i r).byte j = r.byte j := by
  intro fuel
  induction fuel with
  | zero => intro i r _; rfl
  | succ n ih =>
    intro i r hi
    unfold configurePorts
    split
    · rw [ih (i + 1) _ (by omega), configurePort_eq]
      simp only [Packet.byte_store, OFF_sw_in, OFF_sw_out, OFF_port_types, OFF_good_input,
        OFF_good_output, OFF_num_ports_l, OFF_num_ports_h, OFF_node_report, OFF_long_name,
        OFF_short_name, OFF_esta_man_h, OFF_esta_man_l, OFF_status_1, OFF_ubea_ver, OFF_oem_l,
        OFF_oem_h, OFF_sub_sw, OFF_net_sw, OFF_ver_l, OFF_ver_h, OFF_port_h, OFF_port_l, OFF_ip,
        OFF_op_code_h, OFF_op_code_l, OFF_id, NUM_POLLREPLY_PUBLIC_PORT_LIMIT]
      split_ifs <;> first | rfl | omega
    · rfl

theorem Packet.byte_ite (c : Prop) [Decidable c] (r s : Packet) (j : Nat) :
    (if c then r else s).byte j = if c then r.byte j else s.byte j := by
  split <;> rfl

theorem u8_and_15 (x : Nat) : u8 (x &&& 15) = x &&& 15 := by
  have h : x &&& 15 ≤ 15 := Nat.and_le_right
  unfold u8
  omega

theorem u8_and_127 (x : Nat) : u8 (x &&& 127) = x &&& 127 := by
  have h : x &&& 127 ≤ 127 := Nat.and_le_right
  unfold u8
  omega

theorem u8_ite (c : Prop) [Decidable c] (a b : Nat) :
    u8 (if c then a else b) = if c then u8 a else u8 b := by
  split <;> rfl

theorem u8_lit_0 : u8 0 = 0 := rfl
theorem u8_lit_128 : u8 128 = 128 := rfl

theorem u8_portTypeCode (p : PortConfiguration) : u8 (portTypeCode p) = portTypeCode p := by
  unfold portTypeCode
  cases p.input_enabled <;> cases p.output_enabled <;> rfl

/-- The five bytes of port slot `i` in a reply. -/
theorem gen_port_bytes (c : Common) (g : Nat → Nat) (ip : IPAddress) (mac : Fin 6 → Nat)
    (pm : PortMappingResult) (md : Config) (i : Nat) (hi : i < 4) :
    let r := replyBytes c g ip mac pm md
    r.byte (186 + i) =
        (if pm.num_ports = 0 then arr md.sw_in i &&& 15
         else if i < pm.num_ports then (portAt pm i).sw_in &&& 15 else 0) ∧
      r.byte (190 + i) = (if i < pm.num_ports then (portAt pm i).sw_out &&& 15 else 0) ∧
      r.byte (174 + i) = (if i < pm.num_ports then portTypeCode (portAt pm i) else 0) ∧
      r.byte (178 + i) =
        (if i < pm.num_ports then (if (portAt pm i).input_enabled then 0x80 else 0) else 0) ∧
      r.byte (182 + i) =
        (if i < pm.num_ports then (if (portAt pm i).output_enabled then 0x80 else 0) else 0) := by
  intro r
  have h4 : i = 0 ∨ i = 1 ∨ i = 2 ∨ i = 3 := by omega
  rcases h4 with h | h | h | h <;> subst h <;>
    refine ⟨?_, ?_, ?_, ?_, ?_⟩ <;>
    simp [r, replyBytes, configurePorts_eq, byte_portStep, configurePort_eq,
      Packet.byte_store, Packet.byte_memset, Packet.byte_copyBytes, Packet.byte_foldl_store,
      Packet.byte_ite, u8_and_15, u8_ite, u8_lit_0, u8_lit_128,
      u8_portTypeCode]

/-- The bytes of the three text members of a reply. -/
theorem gen_text_byte (c : Common) (g : Nat → Nat) (ip : IPAddress) (mac : Fin 6 → Nat)
    (pm : PortMappingResult) (md : Config) (j : Nat) (h1 : 26 ≤ j) (h2 : j < 172) :
    (replyBytes c g ip mac pm md).byte j =
      if 108 ≤ j ∧ j < 108 + md.node_report.length then u8 (c_str md.node_report (j - 108))
      else if 44 ≤ j ∧ j < 44 + md.long_name.length then u8 (c_str md.long_name (j - 44))
      else if j < 26 + md.short_name.length then u8 (c_str md.short_name (j - 26))
      else 0 := by
  have hframe : ∀ r : Packet, (configurePorts pm 4 0 r).byte j = r.byte j := fun r =>
    byte_configurePorts_frame pm j (Or.inl (by omega)) 4 0 r (by omega)
  simp only [replyBytes, OFF_sw_in, OFF_sw_out,
    OFF_port_types, OFF_good_input, OFF_good_output, OFF_num_ports_l, OFF_num_ports_h,
    OFF_node_report, OFF_long_name, OFF_short_name, OFF_esta_man_h, OFF_esta_man_l,
    OFF_status_1, OFF_ubea_ver, OFF_oem_l, OFF_oem_h, OFF_sub_sw, OFF_net_sw, OFF_ver_l,
    OFF_ver_h, OFF_port_h, OFF_port_l, OFF_ip, OFF_op_code_h, OFF_op_code_l, OFF_id,
    OFF_sw_video, OFF_sw_macro, OFF_sw_remote, OFF_spare, OFF_style, OFF_mac, OFF_bind_ip,
    OFF_bind_index, OFF_status_2, OFF_filler, NUM_POLLREPLY_PUBLIC_PORT_LIMIT, ID_LENGTH,
    Nat.reduceAdd]
  simp only [Packet.byte_store, Packet.byte_memset,
    Packet.byte_copyBytes, Packet.byte_foldl_store, Packet.byte_ite, hframe]
  have hA : ∀ a, 172 ≤ a → (j = a) = False := fun a ha => eq_false (by omega)
  have hB : ∀ a, 172 ≤ a → (a ≤ j) = False := fun a ha => eq_false (by omega)
  have hC : ∀ a, a < 26 → (j = a) = False := fun a ha => eq_false (by omega)
  simp only [hA, hB, hC, Nat.reduceLeDiff, Nat.reduceLT, Nat.reduceAdd, false_and, if_false,
    ite_self]
  split_ifs <;> first | rfl | omega

/-- When the three texts stay inside the object, `generatePacketFrom` returns the packet
`replyBytes`. -/
theorem generatePacketFrom_eq_some (c : Common) (g : Nat → Nat) (ip : IPAddress)
    (mac : Fin 6 → Nat) (pm : PortMappingResult) (md : Config)
    (hs : md.short_name.length ≤ 213) (hl : md.long_name.length ≤ 195)
    (hn : md.node_report.length ≤ 131) :
    generatePacketFrom c g ip mac pm md = some (replyBytes c g ip mac pm md) := by
  have h0 : OFF_mac + 6 ≤ PACKET_SIZE := by decide
  have h1 : OFF_short_name + md.short_name.length ≤ PACKET_SIZE := by
    simp only [OFF_short_name, OFF_esta_man_h, OFF_esta_man_l, OFF_status_1, OFF_ubea_ver,
      OFF_oem_l, OFF_oem_h, OFF_sub_sw, OFF_net_sw, OFF_ver_l, OFF_ver_h, OFF_port_h,
      OFF_port_l, OFF_ip, OFF_op_code_h, OFF_op_code_l, OFF_id, PACKET_SIZE]
    omega
  have h2 : OFF_long_name + md.long_name.length ≤ PACKET_SIZE := by
    simp only [OFF_long_name, OFF_short_name, OFF_esta_man_h, OFF_esta_man_l, OFF_status_1,
      OFF_ubea_ver, OFF_oem_l, OFF_oem_h, OFF_sub_sw, OFF_net_sw, OFF_ver_l, OFF_ver_h,
      OFF_port_h, OFF_port_l, OFF_ip, OFF_op_code_h, OFF_op_code_l, OFF_id, PACKET_SIZE]
    omega
  have h3 : OFF_node_report + md.node_report.length ≤ PACKET_SIZE := by
    simp only [OFF_node_report, OFF_long_name, OFF_short_name, OFF_esta_man_h, OFF_esta_man_l,
      OFF_status_1, OFF_ubea_ver, OFF_oem_l, OFF_oem_h, OFF_sub_sw, OFF_net_sw, OFF_ver_l,
      OFF_ver_h, OFF_port_h, OFF_port_l, OFF_ip, OFF_op_code_h, OFF_op_code_l, OFF_id,
      PACKET_SIZE]
    omega
  unfold generatePacketFrom replyBytes
  simp only [Packet.memcpy, if_pos h0, if_pos h1, if_pos h2, if_pos h3, bind, Option.bind,
    pure]

/-- When a text leaves the object, `generatePacketFrom` has no result. -/
theorem generatePacketFrom_eq_none (c : Common) (g : Nat → Nat) (ip : IPAddress)
    (mac : Fin 6 → Nat) (pm : PortMappingResult) (md : Config)
    (h : 213 < md.short_name.length ∨ 195 < md.long_name.length ∨
      131 < md.node_report.length) :
    generatePacketFrom c g ip mac pm md = none := by
  have h0 : OFF_mac + 6 ≤ PACKET_SIZE := by decide
  have e1 : OFF_short_name = 26 := rfl
  have e2 : OFF_long_name = 44 := rfl
  have e3 : OFF_node_report = 108 := rfl
  have e4 : PACKET_SIZE = 239 := rfl
  unfold generatePacketFrom
  simp only [Packet.memcpy, if_pos h0, bind, Option.bind, pure]
  by_cases h1 : OFF_short_name + md.short_name.length ≤ PACKET_SIZE
  · by_cases h2 : OFF_long_name + md.long_name.length ≤ PACKET_SIZE
    · have h3 : ¬ OFF_node_report + md.node_report.length ≤ PACKET_SIZE := by
        rw [e1, e4] at h1
        rw [e2, e4] at h2
        rw [e3, e4]
        omega
      simp only [if_pos h1, if_pos h2, if_neg h3]
    · simp only [if_pos h1, if_neg h2]
  · simp only [if_neg h1]

/-- The 132-byte node report of `overrunConfig` leaves the object: no reply. -/
theorem generatePacketFrom_overrunConfig (c : Common) (g : Nat → Nat) (ip : IPAddress)
    (mac : Fin 6 → Nat) (pm : PortMappingResult) :
    generatePacketFrom c g ip mac pm overrunConfig = none :=
  generatePacketFrom_eq_none c g ip mac pm overrunConfig
    (Or.inr (Or.inr (by
      show 131 < (List.replicate 132 0x58).length
      rw [List.length_replicate]
      decide)))

theorem u8_of_lt (x : Nat) (h : x < 256) : u8 x = x := Nat.mod_eq_of_lt h

/-- Of the packet `replyBytes`:
for every index `i` with `num_ports <= i < 4` the reply has
`port_types[i]`, `good_input[i]`, `good_output[i]` and `sw_out[i]` equal to 0; `sw_in[i]`
is 0 when at least one port is reported, and `metadata.sw_in[i] & 0x0F` when
`num_ports == 0`. -/
theorem bytes_unused_slots (c : Common) (garbage : Nat → Nat) (my_ip : IPAddress)
    (my_mac : Fin 6 → Nat) (metadata : Config) (mapping : PortMappingResult) (i : Fin 4)
    (hi : mapping.num_ports ≤ i.val) :
    let r := replyBytes c garbage my_ip my_mac mapping metadata
    r.port_types i.val = 0 ∧ r.good_input i.val = 0 ∧ r.good_output i.val = 0 ∧
      r.sw_out i.val = 0 ∧
      (1 ≤ mapping.num_ports → r.sw_in i.val = 0) ∧
      (mapping.num_ports = 0 → r.sw_in i.val = metadata.sw_in i &&& 0x0F) := by
  intro r
  have hlt : ¬ i.val < mapping.num_ports := by omega
  obtain ⟨hsi, hso, ht, hgi, hgo⟩ :=
    gen_port_bytes c garbage my_ip my_mac mapping metadata i.val i.isLt
  rw [if_neg hlt] at hso ht hgi hgo
  refine ⟨ht, hgi, hgo, hso, ?_, ?_⟩
  · intro h1
    have hne : ¬ mapping.num_ports = 0 := by omega
    show r.byte (186 + i.val) = 0
    rw [hsi, if_neg hne, if_neg hlt]
  · intro h0
    show r.byte (186 + i.val) = _
    rw [hsi, if_pos h0]
    simp [arr]

theorem ofTriple_universe15bit (n s u : Nat) (hn : n ≤ 127) (hs : s ≤ 15) (hu : u ≤ 15) :
    (UniverseDescriptor.ofTriple n s u).universe15bit = n * 256 + s * 16 + u := by
  have e1 : n <<< 8 ||| s <<< 4 = n * 256 + s * 16 := by
    have := Nat.mul_add_lt_is_or (show s * 16 < 2 ^ 8 by omega) n
    have h1 : n <<< 8 = 2 ^ 8 * n := by rw [Nat.shiftLeft_eq, Nat.mul_comm]
    have h2 : s <<< 4 = s * 16 := by rw [Nat.shiftLeft_eq]
    rw [h1, h2, ← this]
    omega
  have e2 : n <<< 8 ||| s <<< 4 ||| u = n * 256 + s * 16 + u := by
    have := Nat.mul_add_lt_is_or (show u < 2 ^ 4 by omega) (n * 16 + s)
    rw [e1]
    have e3 : 2 ^ 4 * (n * 16 + s) = n * 256 + s * 16 := by omega
    rw [e3] at this
    exact this.symm
  have hn8 : u8 n = n := u8_of_lt n (by omega)
  have hs8 : u8 s = s := u8_of_lt s (by omega)
  have hu8 : u8 u = u := u8_of_lt u (by omega)
  have h16 : ∀ x, x < 256 → u16 x = x := fun x hx => Nat.mod_eq_of_lt (by omega)
  show u16 ((u16 (u8 n) <<< 8) ||| (u16 (u8 s) <<< 4) ||| u16 (u8 u)) = _
  rw [hn8, hs8, hu8, h16 n (by omega), h16 s (by omega), h16 u (by omega), e2]
  exact Nat.mod_eq_of_lt (by omega)

theorem shift_and_net (x : Nat) : (x >>> 8) &&& 0x7F = x / 256 % 128 := by
  have := Nat.and_pow_two_sub_one_eq_mod (x >>> 8) 7
  simp only [Nat.reducePow, Nat.add_one_sub_one] at this
  rw [this, Nat.shiftRight_eq_div_pow]

theorem shift_and_subnet (x : Nat) : (x >>> 4) &&& 0x0F = x / 16 % 16 := by
  have := Nat.and_pow_two_sub_one_eq_mod (x >>> 4) 4
  simp only [Nat.reducePow, Nat.add_one_sub_one] at this
  rw [this, Nat.shiftRight_eq_div_pow]

theorem Packet.field_eq_map (r : Packet) (off w : Nat) (h : off + w ≤ 239) :
    r.field off w = (List.range w).map (fun k => r.byte (off + k)) := by
  have hl : r.b.length = 239 := r.size_eq
  apply List.ext_getElem
  · simp [Packet.field, hl]
    omega
  · intro k h1 h2
    simp only [List.length_map, List.length_range] at h2
    have hk : off + k < r.b.length := by omega
    simp [Packet.field, Packet.byte, List.getD_eq_getElem?_getD, List.getElem?_eq_getElem hk]

theorem padded_text (s : List Nat) (w : Nat) (f : Nat → Nat) (hlen : s.length ≤ w)
    (hb : IsBytes s) (hf : ∀ k, k < w → f k = if k < s.length then u8 (c_str s k) else 0) :
    (List.range w).map f = s ++ List.replicate (w - s.length) 0 := by
  apply List.ext_getElem
  · simp
    omega
  · intro k h1 h2
    simp only [List.length_map, List.length_range] at h1
    simp only [List.getElem_map, List.getElem_range, hf k h1]
    by_cases hk : k < s.length
    · rw [if_pos hk, List.getElem_append_left hk]
      have : c_str s k = s[k] := by
        simp [c_str, List.getD_eq_getElem?_getD, List.getElem?_eq_getElem hk]
      rw [this]
      exact u8_of_lt _ (hb _ (List.getElem_mem hk))
    · rw [if_neg hk, List.getElem_append_right (by omega)]
      simp

theorem getLast?_padded (s : List Nat) (n : Nat) (hn : 1 ≤ n) :
    (s ++ List.replicate n 0).getLast? = some 0 := by
  obtain ⟨m, rfl⟩ : ∃ m, n = m + 1 := ⟨n - 1, by omega⟩
  rw [List.replicate_succ', ← List.append_assoc, List.getLast?_append]
  simp

/-- Of the packet `replyBytes`:
when `short_name` has at most 17 bytes and `long_name` and `node_report` at most
63 bytes each, the members `short_name[18]`, `long_name[64]` and `node_report[64]` of the
reply are the bytes of the text followed by zero bytes up to the member's width, so each
member ends with a zero byte. -/
theorem bytes_text_fields_zero_padded (c : Common) (garbage : Nat → Nat) (my_ip : IPAddress)
    (my_mac : Fin 6 → Nat) (mapping : PortMappingResult) (metadata : Config)
    (hs : metadata.short_name.length ≤ 17) (hl : metadata.long_name.length ≤ 63)
    (hn : metadata.node_report.length ≤ 63)
    (hsb : IsBytes metadata.short_name) (hlb : IsBytes metadata.long_name)
    (hnb : IsBytes metadata.node_report) :
    let r := replyBytes c garbage my_ip my_mac mapping metadata
    r.short_name
        = metadata.short_name ++ List.replicate (18 - metadata.short_name.length) 0 ∧
      r.long_name
        = metadata.long_name ++ List.replicate (64 - metadata.long_name.length) 0 ∧
      r.node_report
        = metadata.node_report ++ List.replicate (64 - metadata.node_report.length) 0 ∧
      r.short_name.getLast? = some 0 ∧ r.long_name.getLast? = some 0 ∧
      r.node_report.getLast? = some 0 := by
  intro r
  have e1 : r.short_name
      = metadata.short_name ++ List.replicate (18 - metadata.short_name.length) 0 := by
    show r.field 26 18 = _
    rw [Packet.field_eq_map r 26 18 (by omega)]
    apply padded_text _ _ _ (by omega) hsb
    intro k hk
    rw [gen_text_byte c garbage my_ip my_mac mapping metadata (26 + k) (by omega) (by omega)]
    rw [if_neg (by omega), if_neg (by omega)]
    by_cases h : k < metadata.short_name.length
    · rw [if_pos (by omega), if_pos h]
      simp
    · rw [if_neg (by omega), if_neg h]
  have e2 : r.long_name
      = metadata.long_name ++ List.replicate (64 - metadata.long_name.length) 0 := by
    show r.field 44 64 = _
    rw [Packet.field_eq_map r 44 64 (by omega)]
    apply padded_text _ _ _ (by omega) hlb
    intro k hk
    rw [gen_text_byte c garbage my_ip my_mac mapping metadata (44 + k) (by omega) (by omega)]
    rw [if_neg (by omega)]
    by_cases h : k < metadata.long_name.length
    · rw [if_pos (by omega), if_pos h]
      simp
    · rw [if_neg (by omega), if_neg (by omega), if_neg h]
  have e3 : r.node_report
      = metadata.node_report ++ List.replicate (64 - metadata.node_report.length) 0 := by
    show r.field 108 64 = _
    rw [Packet.field_eq_map r 108 64 (by omega)]
    apply padded_text _ _ _ (by omega) hnb
    intro k hk
    rw [gen_text_byte c garbage my_ip my_mac mapping metadata (108 + k) (by omega) (by omega)]
    by_cases h : k < metadata.node_report.length
    · rw [if_pos (by omega), if_pos h]
      simp
    · rw [if_neg (by omega), if_neg (by omega), if_neg (by omega), if_neg h]
  refine ⟨e1, e2, e3, ?_, ?_, ?_⟩
  · rw [e1]; exact getLast?_padded _ _ (by omega)
  · rw [e2]; exact getLast?_padded _ _ (by omega)
  · rw [e3]; exact getLast?_padded _ _ (by omega)

theorem u8_and_255 (x : Nat) : u8 (x &&& 255) = x &&& 255 := by
  have h : x &&& 255 ≤ 255 := Nat.and_le_right
  unfold u8
  omega

/-- The bytes of the header that the encoder takes from the metadata and from
Common.h. -/
theorem gen_header_bytes (c : Common) (g : Nat → Nat) (ip : IPAddress) (mac : Fin 6 → Nat)
    (pm : PortMappingResult) (md : Config) :
    let r := replyBytes c g ip mac pm md
    r.byte 14 = c.DEFAULT_PORT &&& 0xFF ∧ r.byte 15 = (c.DEFAULT_PORT >>> 8) &&& 0xFF ∧
      r.byte 20 = (md.oem >>> 8) &&& 0xFF ∧ r.byte 21 = md.oem &&& 0xFF ∧
      r.byte 24 = md.esta_man &&& 0xFF ∧ r.byte 25 = (md.esta_man >>> 8) &&& 0xFF ∧
      r.byte 22 = 0 ∧ r.byte 23 = u8 md.status1 := by
  intro r
  refine ⟨?_, ?_, ?_, ?_, ?_, ?_, ?_, ?_⟩ <;>
    simp [r, replyBytes, configurePorts_eq, byte_portStep, configurePort_eq,
      Packet.byte_store, Packet.byte_memset, Packet.byte_copyBytes, Packet.byte_foldl_store,
      Packet.byte_ite, u8_and_255, u8_lit_0]

/-- Of the packet `replyBytes`:
the OEM code is emitted high byte first (`oem_h` at offset 20 holds
`(oem >> 8) & 0xFF`, `oem_l` at offset 21 holds `oem & 0xFF`) and the manufacturer code
low byte first (`esta_man_l` at offset 24 holds `esta_man & 0xFF`, `esta_man_h` at
offset 25 holds `(esta_man >> 8) & 0xFF`). -/
theorem bytes_code_byte_order (c : Common) (garbage : Nat → Nat) (my_ip : IPAddress)
    (my_mac : Fin 6 → Nat) (mapping : PortMappingResult) (metadata : Config) :
    let r := replyBytes c garbage my_ip my_mac mapping metadata
    (r.oem_h = r.byte 20 ∧ r.byte 20 = (metadata.oem >>> 8) &&& 0xFF) ∧
      (r.oem_l = r.byte 21 ∧ r.byte 21 = metadata.oem &&& 0xFF) ∧
      (r.esta_man_l = r.byte 24 ∧ r.byte 24 = metadata.esta_man &&& 0xFF) ∧
      (r.esta_man_h = r.byte 25 ∧ r.byte 25 = (metadata.esta_man >>> 8) &&& 0xFF) := by
  intro r
  obtain ⟨-, -, h20, h21, h24, h25, -, -⟩ :=
    gen_header_bytes c garbage my_ip my_mac mapping metadata
  exact ⟨⟨rfl, h20⟩, ⟨rfl, h21⟩, ⟨rfl, h24⟩, ⟨rfl, h25⟩⟩

/-- Of the packet `replyBytes`:
the two-byte port field is emitted low byte first: `port_l` at offset 14
holds `DEFAULT_PORT & 0xFF` and `port_h` at offset 15 holds `(DEFAULT_PORT >> 8) & 0xFF`. -/
theorem bytes_port_byte_order (c : Common) (garbage : Nat → Nat) (my_ip : IPAddress)
    (my_mac : Fin 6 → Nat) (mapping : PortMappingResult) (metadata : Config) :
    let r := replyBytes c garbage my_ip my_mac mapping metadata
    (r.port_l = r.byte 14 ∧ r.byte 14 = c.DEFAULT_PORT &&& 0xFF) ∧
      (r.port_h = r.byte 15 ∧ r.byte 15 = (c.DEFAULT_PORT >>> 8) &&& 0xFF) := by
  intro r
  obtain ⟨h14, h15, -⟩ := gen_header_bytes c garbage my_ip my_mac mapping metadata
  exact ⟨⟨rfl, h14⟩, ⟨rfl, h15⟩⟩

/-- The bytes of `ip[4]` and `bind_ip[4]`. -/
theorem gen_ip_bytes (c : Common) (g : Nat → Nat) (ip : IPAddress) (mac : Fin 6 → Nat)
    (pm : PortMappingResult) (md : Config) (k : Nat) (hk : k < 4) :
    (replyBytes c g ip mac pm md).byte (10 + k) = u8 (ip.get k) ∧
      (replyBytes c g ip mac pm md).byte (207 + k) = u8 (ip.get k) := by
  have h4 : k = 0 ∨ k = 1 ∨ k = 2 ∨ k = 3 := by omega
  rcases h4 with h | h | h | h <;> subst h <;> constructor <;>
    simp [replyBytes, configurePorts_eq, byte_portStep, configurePort_eq,
      Packet.byte_store, Packet.byte_memset, Packet.byte_copyBytes, Packet.byte_foldl_store,
      Packet.byte_ite]

/-- The bytes of `mac[6]`: the caller's MAC, unless a text copied after it reaches the
member. -/
theorem gen_mac_byte (c : Common) (g : Nat → Nat) (ip : IPAddress) (mac : Fin 6 → Nat)
    (pm : PortMappingResult) (md : Config) (k : Nat) (hk : k < 6) :
    (replyBytes c g ip mac pm md).byte (201 + k) =
      if 93 + k < md.node_report.length then u8 (c_str md.node_report (93 + k))
      else if 157 + k < md.long_name.length then u8 (c_str md.long_name (157 + k))
      else if 175 + k < md.short_name.length then u8 (c_str md.short_name (175 + k))
      else u8 (arr mac k) := by
  have h6 : k = 0 ∨ k = 1 ∨ k = 2 ∨ k = 3 ∨ k = 4 ∨ k = 5 := by omega
  rcases h6 with h | h | h | h | h | h <;> subst h <;>
    simp only [replyBytes, configurePorts_eq, byte_portStep, configurePort_eq,
      Packet.byte_store, Packet.byte_memset, Packet.byte_copyBytes, Packet.byte_foldl_store,
      Packet.byte_ite, OFF_sw_in, OFF_sw_out,
      OFF_port_types, OFF_good_input, OFF_good_output, OFF_num_ports_l, OFF_num_ports_h,
      OFF_node_report, OFF_long_name, OFF_short_name, OFF_esta_man_h, OFF_esta_man_l,
      OFF_status_1, OFF_ubea_ver, OFF_oem_l, OFF_oem_h, OFF_sub_sw, OFF_net_sw, OFF_ver_l,
      OFF_ver_h, OFF_port_h, OFF_port_l, OFF_ip, OFF_op_code_h, OFF_op_code_l, OFF_id,
      OFF_sw_video, OFF_sw_macro, OFF_sw_remote, OFF_spare, OFF_style, OFF_mac, OFF_bind_ip,
      OFF_bind_index, OFF_status_2, OFF_filler, NUM_POLLREPLY_PUBLIC_PORT_LIMIT, ID_LENGTH,
      Nat.reduceAdd, Nat.reduceLeDiff, Nat.reduceLT, Nat.reduceEqDiff, Nat.reduceSub,
      false_and, and_false, true_and, and_true, if_false, if_true, ite_self] <;>
    split_ifs <;> first | rfl | omega

/-- The member `mac[6]` holds the caller's MAC when no text reaches it. -/
theorem gen_mac_of_short_text (c : Common) (g : Nat → Nat) (ip : IPAddress)
    (mac : Fin 6 → Nat) (pm : PortMappingResult) (md : Config)
    (hn : md.node_report.length ≤ 93) (hl : md.long_name.length ≤ 157)
    (hs : md.short_name.length ≤ 175) (k : Fin 6) :
    (replyBytes c g ip mac pm md).byte (201 + k.val) = u8 (mac k) := by
  rw [gen_mac_byte c g ip mac pm md k.val k.isLt, if_neg (by omega), if_neg (by omega),
    if_neg (by omega)]
  simp [arr]

end art_net.art_poll_reply

/-! ## The encoder: claims -/

namespace art_net.art_poll_reply
open Packet

/-- C7, as stated, fails: with no port reported (`num_ports == 0`) slot 0 is beyond the
port count, and its `sw_in[0]` is the nibble 5 of the metadata, not 0; and with a
132-byte node report the copy leaves the 239-byte object and there is no reply. -/
theorem C7_unused_sw_in_counterexample :
    PortMappingResult.init.num_ports ≤ 0 ∧
      (∃ r, generatePacketFrom sampleCommon sampleGarbage sampleIP sampleMac
          PortMappingResult.init legacyConfig = some r ∧ r.sw_in 0 = 5 ∧ r.sw_in 0 ≠ 0) ∧
      generatePacketFrom sampleCommon sampleGarbage sampleIP sampleMac PortMappingResult.init
        overrunConfig = none := by
  refine ⟨Nat.le_refl _, ⟨replyBytes sampleCommon sampleGarbage sampleIP sampleMac
      PortMappingResult.init legacyConfig,
    generatePacketFrom_eq_some _ _ _ _ _ _ (by decide) (by decide) (by decide), ?_⟩,
    generatePacketFrom_overrunConfig _ _ _ _ _⟩
  have h : (replyBytes sampleCommon sampleGarbage sampleIP sampleMac
      PortMappingResult.init legacyConfig).sw_in 0 = 5 :=
    (gen_port_bytes sampleCommon sampleGarbage sampleIP sampleMac PortMappingResult.init
      legacyConfig 0 (by decide)).1
  exact ⟨h, by rw [h]; decide⟩

/-- C7, amended: for every metadata whose `short_name` has at most 213 bytes, `long_name`
at most 195 and `node_report` at most 131 (the texts stay inside the reply), and every
index `i` with `num_ports <= i < 4`, `generatePacketFrom` returns a reply that has
`port_types[i]`, `good_input[i]`, `good_output[i]` and `sw_out[i]` equal to 0; its
`sw_in[i]` is 0 when at least one port is reported, and `metadata.sw_in[i] & 0x0F` when
`num_ports == 0`. -/
theorem C7_unused_slots (c : Common) (garbage : Nat → Nat) (my_ip : IPAddress)
    (my_mac : Fin 6 → Nat) (metadata : Config) (mapping : PortMappingResult) (i : Fin 4)
    (hs : metadata.short_name.length ≤ 213) (hl : metadata.long_name.length ≤ 195)
    (hn : metadata.node_report.length ≤ 131)
    (hi : mapping.num_ports ≤ i.val) :
    ∃ r, generatePacketFrom c garbage my_ip my_mac mapping metadata = some r ∧
      r.port_types i.val = 0 ∧ r.good_input i.val = 0 ∧ r.good_output i.val = 0 ∧
      r.sw_out i.val = 0 ∧
      (1 ≤ mapping.num_ports → r.sw_in i.val = 0) ∧
      (mapping.num_ports = 0 → r.sw_in i.val = metadata.sw_in i &&& 0x0F) :=
  ⟨replyBytes c garbage my_ip my_mac mapping metadata,
    generatePacketFrom_eq_some c garbage my_ip my_mac mapping metadata hs hl hn,
    bytes_unused_slots c garbage my_ip my_mac metadata mapping i hi⟩

theorem C7_unused_slots_witness :
    (legacyConfig.short_name.length ≤ 213 ∧ legacyConfig.long_name.length ≤ 195 ∧
        legacyConfig.node_report.length ≤ 131) ∧
      sampleMapping.num_ports ≤ (3 : Fin 4).val ∧
      ∃ r, generatePacketFrom sampleCommon sampleGarbage sampleIP sampleMac sampleMapping
          legacyConfig = some r ∧ r.port_types 3 = 0 ∧ r.sw_in 3 = 0 := by
  obtain ⟨r, hr, h⟩ := C7_unused_slots sampleCommon sampleGarbage sampleIP sampleMac
    legacyConfig sampleMapping 3 (by decide) (by decide) (by decide) (by decide)
  exact ⟨by decide, by decide, r, hr, h.1, h.2.2.2.2.1 (by decide)⟩

/-- C9: when `short_name` has at most 17 bytes and `long_name` and `node_report` at most
63 bytes each, `generatePacketFrom` returns a reply whose members `short_name[18]`,
`long_name[64]` and `node_report[64]` are the bytes of the text followed by zero bytes up
to the member's width, so each member ends with a zero byte. -/
theorem C9_text_fields_zero_padded (c : Common) (garbage : Nat → Nat) (my_ip : IPAddress)
    (my_mac : Fin 6 → Nat) (mapping : PortMappingResult) (metadata : Config)
    (hs : metadata.short_name.length ≤ 17) (hl : metadata.long_name.length ≤ 63)
    (hn : metadata.node_report.length ≤ 63)
    (hsb : IsBytes metadata.short_name) (hlb : IsBytes metadata.long_name)
    (hnb : IsBytes metadata.node_report) :
    ∃ r, generatePacketFrom c garbage my_ip my_mac mapping metadata = some r ∧
      r.short_name
        = metadata.short_name ++ List.replicate (18 - metadata.short_name.length) 0 ∧
      r.long_name
        = metadata.long_name ++ List.replicate (64 - metadata.long_name.length) 0 ∧
      r.node_report
        = metadata.node_report ++ List.replicate (64 - metadata.node_report.length) 0 ∧
      r.short_name.getLast? = some 0 ∧ r.long_name.getLast? = some 0 ∧
      r.node_report.getLast? = some 0 :=
  ⟨replyBytes c garbage my_ip my_mac mapping metadata,
    generatePacketFrom_eq_some c garbage my_ip my_mac mapping metadata (by omega) (by omega)
      (by omega),
    bytes_text_fields_zero_padded c garbage my_ip my_mac mapping metadata hs hl hn hsb hlb hnb⟩

theorem C9_text_fields_zero_padded_witness :
    (sampleConfig.short_name.length ≤ 17 ∧ sampleConfig.long_name.length ≤ 63 ∧
        sampleConfig.node_report.length ≤ 63) ∧
      (IsBytes sampleConfig.short_name ∧ IsBytes sampleConfig.long_name ∧
        IsBytes sampleConfig.node_report) ∧
      ∃ r, generatePacketFrom sampleCommon sampleGarbage sampleIP sampleMac sampleMapping
          sampleConfig = some r ∧
        r.short_name = textBytes "Test Node" ++ [0, 0, 0, 0, 0, 0, 0, 0, 0] := by
  have hlen : sampleConfig.short_name.length ≤ 17 ∧ sampleConfig.long_name.length ≤ 63 ∧
      sampleConfig.node_report.length ≤ 63 := by decide
  have hb : IsBytes sampleConfig.short_name ∧ IsBytes sampleConfig.long_name ∧
      IsBytes sampleConfig.node_report := by decide
  obtain ⟨r, hr, h, -⟩ := C9_text_fields_zero_padded sampleCommon sampleGarbage sampleIP
    sampleMac sampleMapping sampleConfig hlen.1 hlen.2.1 hlen.2.2 hb.1 hb.2.1 hb.2.2
  exact ⟨hlen, hb, r, hr, h⟩

set_option maxRecDepth 100000 in
/-- C10 at an 18-byte short name: `generatePacketFrom` returns a reply whose member
`short_name[18]` holds all 18 bytes of the text, which is not its first 17 bytes followed
by a zero byte. -/
theorem C10_short_name_not_truncated :
    longNameConfig.short_name.length = 18 ∧
      ∃ r, generatePacketFrom sampleCommon sampleGarbage sampleIP sampleMac sampleMapping
          longNameConfig = some r ∧
        r.short_name = textBytes "ABCDEFGHIJKLMNOPQR" ∧
        r.short_name ≠ longNameConfig.short_name.take 17 ++ [0] := by
  refine ⟨by decide, replyBytes sampleCommon sampleGarbage sampleIP sampleMac sampleMapping
    longNameConfig, generatePacketFrom_eq_some _ _ _ _ _ _ (by decide) (by decide)
    (by decide), ?_⟩
  decide

/-- C11, as stated, fails for the manufacturer code: with `esta_man = 0x1234` the byte at
offset 24 of the reply is 0x34, the low byte, and not `(esta_man >> 8) & 0xFF = 0x12`;
and with a 132-byte node report the copy leaves the 239-byte object and there is no
reply. -/
theorem C11_manufacturer_order_counterexample :
    (∃ r, generatePacketFrom sampleCommon sampleGarbage sampleIP sampleMac sampleMapping
        manufacturerConfig = some r ∧ r.byte 24 = 0x34 ∧
        r.byte 24 ≠ (manufacturerConfig.esta_man >>> 8) &&& 0xFF) ∧
      (manufacturerConfig.esta_man >>> 8) &&& 0xFF = 0x12 ∧
      generatePacketFrom sampleCommon sampleGarbage sampleIP sampleMac sampleMapping
        overrunConfig = none := by
  have h := (gen_header_bytes sampleCommon sampleGarbage sampleIP sampleMac sampleMapping
    manufacturerConfig).2.2.2.2.1
  have h24 : (replyBytes sampleCommon sampleGarbage sampleIP sampleMac sampleMapping
      manufacturerConfig).byte 24 = 0x34 := h.trans (by decide)
  exact ⟨⟨_, generatePacketFrom_eq_some _ _ _ _ _ _ (by decide) (by decide) (by decide),
    h24, by rw [h24]; decide⟩, by decide, generatePacketFrom_overrunConfig _ _ _ _ _⟩

/-- C11, amended: for every metadata whose `short_name` has at most 213 bytes, `long_name`
at most 195 and `node_report` at most 131 (the texts stay inside the reply),
`generatePacketFrom` returns a reply in which the OEM code is emitted high byte first
(`oem_h` at offset 20 holds `(oem >> 8) & 0xFF`, `oem_l` at offset 21 holds `oem & 0xFF`)
and the manufacturer code low byte first (`esta_man_l` at offset 24 holds
`esta_man & 0xFF`, `esta_man_h` at offset 25 holds `(esta_man >> 8) & 0xFF`). -/
theorem C11_code_byte_order (c : Common) (garbage : Nat → Nat) (my_ip : IPAddress)
    (my_mac : Fin 6 → Nat) (mapping : PortMappingResult) (metadata : Config)
    (hs : metadata.short_name.length ≤ 213) (hl : metadata.long_name.length ≤ 195)
    (hn : metadata.node_report.length ≤ 131) :
    ∃ r, generatePacketFrom c garbage my_ip my_mac mapping metadata = some r ∧
      (r.oem_h = r.byte 20 ∧ r.byte 20 = (metadata.oem >>> 8) &&& 0xFF) ∧
      (r.oem_l = r.byte 21 ∧ r.byte 21 = metadata.oem &&& 0xFF) ∧
      (r.esta_man_l = r.byte 24 ∧ r.byte 24 = metadata.esta_man &&& 0xFF) ∧
      (r.esta_man_h = r.byte 25 ∧ r.byte 25 = (metadata.esta_man >>> 8) &&& 0xFF) :=
  ⟨replyBytes c garbage my_ip my_mac mapping metadata,
    generatePacketFrom_eq_some c garbage my_ip my_mac mapping metadata hs hl hn,
    bytes_code_byte_order c garbage my_ip my_mac mapping metadata⟩

theorem C11_code_byte_order_witness :
    (manufacturerConfig.short_name.length ≤ 213 ∧ manufacturerConfig.long_name.length ≤ 195 ∧
        manufacturerConfig.node_report.length ≤ 131) ∧
      ∃ r, generatePacketFrom sampleCommon sampleGarbage sampleIP sampleMac sampleMapping
          manufacturerConfig = some r ∧
        r.byte 20 = 0x56 ∧ r.byte 21 = 0x78 ∧ r.byte 24 = 0x34 ∧ r.byte 25 = 0x12 := by
  obtain ⟨r, hr, h20, h21, h24, h25⟩ := C11_code_byte_order sampleCommon sampleGarbage
    sampleIP sampleMac sampleMapping manufacturerConfig (by decide) (by decide) (by decide)
  exact ⟨by decide, r, hr, h20.2.trans (by decide), h21.2.trans (by decide),
    h24.2.trans (by decide), h25.2.trans (by decide)⟩

/-- C12, as stated, fails: with `DEFAULT_PORT = 0x1936` the byte at offset 14 of the reply
is 0x36, the low byte, and not `(DEFAULT_PORT >> 8) & 0xFF = 0x19`; and with a 132-byte
node report the copy leaves the 239-byte object and there is no reply. -/
theorem C12_port_order_counterexample :
    (∃ r, generatePacketFrom sampleCommon sampleGarbage sampleIP sampleMac sampleMapping
        sampleConfig = some r ∧ r.byte 14 = 0x36 ∧
        r.byte 14 ≠ (sampleCommon.DEFAULT_PORT >>> 8) &&& 0xFF) ∧
      (sampleCommon.DEFAULT_PORT >>> 8) &&& 0xFF = 0x19 ∧
      generatePacketFrom sampleCommon sampleGarbage sampleIP sampleMac sampleMapping
        overrunConfig = none := by
  have h := (gen_header_bytes sampleCommon sampleGarbage sampleIP sampleMac sampleMapping
    sampleConfig).1
  have h14 : (replyBytes sampleCommon sampleGarbage sampleIP sampleMac sampleMapping
      sampleConfig).byte 14 = 0x36 := h.trans (by decide)
  exact ⟨⟨_, generatePacketFrom_eq_some _ _ _ _ _ _ (by decide) (by decide) (by decide),
    h14, by rw [h14]; decide⟩, by decide, generatePacketFrom_overrunConfig _ _ _ _ _⟩

/-- C12, amended: for every input whose `short_name` has at most 213 bytes, `long_name` at
most 195 and `node_report` at most 131 (the texts stay inside the reply),
`generatePacketFrom` returns a reply whose two-byte port field is emitted low byte
first: `port_l` at offset 14 holds `DEFAULT_PORT & 0xFF` and `port_h` at offset 15 holds
`(DEFAULT_PORT >> 8) & 0xFF`. -/
theorem C12_port_byte_order (c : Common) (garbage : Nat → Nat) (my_ip : IPAddress)
    (my_mac : Fin 6 → Nat) (mapping : PortMappingResult) (metadata : Config)
    (hs : metadata.short_name.length ≤ 213) (hl : metadata.long_name.length ≤ 195)
    (hn : metadata.node_report.length ≤ 131) :
    ∃ r, generatePacketFrom c garbage my_ip my_mac mapping metadata = some r ∧
      (r.port_l = r.byte 14 ∧ r.byte 14 = c.DEFAULT_PORT &&& 0xFF) ∧
      (r.port_h = r.byte 15 ∧ r.byte 15 = (c.DEFAULT_PORT >>> 8) &&& 0xFF) :=
  ⟨replyBytes c garbage my_ip my_mac mapping metadata,
    generatePacketFrom_eq_some c garbage my_ip my_mac mapping metadata hs hl hn,
    bytes_port_byte_order c garbage my_ip my_mac mapping metadata⟩

theorem C12_port_byte_order_witness :
    (sampleConfig.short_name.length ≤ 213 ∧ sampleConfig.long_name.length ≤ 195 ∧
        sampleConfig.node_report.length ≤ 131) ∧
      ∃ r, generatePacketFrom sampleCommon sampleGarbage sampleIP sampleMac sampleMapping
          sampleConfig = some r ∧ r.byte 14 = 0x36 ∧ r.byte 15 = 0x19 := by
  obtain ⟨r, hr, h14, h15⟩ := C12_port_byte_order sampleCommon sampleGarbage
    sampleIP sampleMac sampleMapping sampleConfig (by decide) (by decide) (by decide)
  exact ⟨by decide, r, hr, h14.2.trans (by decide), h15.2.trans (by decide)⟩

set_option maxRecDepth 100000 in
/-- C14 at a 94-byte node report: `generatePacketFrom` returns a reply whose `ip` and
`bind_ip` hold the caller's address, but the first byte of `mac` is the last byte of the
text (0x58), not the caller's first MAC byte (0x00). -/
theorem C14_mac_overwritten_by_node_report :
    longReportConfig.node_report.length = 94 ∧
      List.ofFn sampleMac = [0, 1, 2, 3, 4, 5] ∧
      ∃ r, generatePacketFrom sampleCommon sampleGarbage sampleIP sampleMac sampleMapping
          longReportConfig = some r ∧
        r.ip = [192, 168, 1, 100] ∧ r.bind_ip = [192, 168, 1, 100] ∧
        r.mac = [0x58, 1, 2, 3, 4, 5] ∧ r.mac ≠ List.ofFn sampleMac := by
  refine ⟨by decide, by decide, replyBytes sampleCommon sampleGarbage sampleIP sampleMac
    sampleMapping longReportConfig,
    generatePacketFrom_eq_some _ _ _ _ _ _ (by decide) (by decide) (by decide), ?_⟩
  decide

end art_net.art_poll_reply

/-! ## Universe addresses: claims -/

namespace art_net
open art_poll_reply

theorem or_triple (n s u : Nat) (hs : s ≤ 15) (hu : u ≤ 15) :
    n <<< 8 ||| s <<< 4 ||| u = n * 256 + s * 16 + u := by
  have e1 : n <<< 8 ||| s <<< 4 = n * 256 + s * 16 := by
    have := Nat.mul_add_lt_is_or (show s * 16 < 2 ^ 8 by omega) n
    have h1 : n <<< 8 = 2 ^ 8 * n := by rw [Nat.shiftLeft_eq, Nat.mul_comm]
    have h2 : s <<< 4 = s * 16 := by rw [Nat.shiftLeft_eq]
    rw [h1, h2, ← this]
    omega
  have := Nat.mul_add_lt_is_or (show u < 2 ^ 4 by omega) (n * 16 + s)
  rw [e1]
  have e3 : 2 ^ 4 * (n * 16 + s) = n * 256 + s * 16 := by omega
  rw [e3] at this
  exact this.symm

theorem and_15_eq_mod (x : Nat) : x &&& 0x0F = x % 16 := by
  have := Nat.and_pow_two_sub_one_eq_mod x 4
  simp only [Nat.reducePow, Nat.add_one_sub_one] at this
  exact this

/-- The fields that `UniverseDescriptor(v)` computes, in arithmetic form. -/
theorem ofUniverse15bit_fields (v : Nat) :
    (UniverseDescriptor.ofUniverse15bit v).net = v % 65536 / 256 % 128 ∧
      (UniverseDescriptor.ofUniverse15bit v).subnet = v % 65536 / 16 % 16 ∧
      (UniverseDescriptor.ofUniverse15bit v).universe_ = v % 65536 % 16 ∧
      (UniverseDescriptor.ofUniverse15bit v).universe15bit = v % 65536 := by
  refine ⟨?_, ?_, ?_, rfl⟩
  · show u8 ((u16 v >>> 8) &&& 0x7F) = _
    rw [u8_and_127, shift_and_net]
    rfl
  · show u8 ((u16 v >>> 4) &&& 0x0F) = _
    rw [u8_and_15, shift_and_subnet]
    rfl
  · show u8 (u16 v &&& 0x0F) = _
    rw [u8_and_15, and_15_eq_mod]
    rfl

theorem or_triple_lt (a b c : Nat) (ha : a < 256) (hb : b < 256) (hc : c < 256) :
    a <<< 8 ||| b <<< 4 ||| c < 65536 := by
  have h1 : a <<< 8 < 2 ^ 16 := by rw [Nat.shiftLeft_eq]; omega
  have h2 : b <<< 4 < 2 ^ 16 := by rw [Nat.shiftLeft_eq]; omega
  have h3 : c < 2 ^ 16 := by omega
  exact Nat.or_lt_two_pow (Nat.or_lt_two_pow h1 h2) h3

/-- The combined value that `UniverseDescriptor(n, s, u)` stores is the expression over
its fields, for any arguments. -/
theorem ofTriple_combined (n s u : Nat) :
    (UniverseDescriptor.ofTriple n s u).universe15bit
      = (UniverseDescriptor.ofTriple n s u).combined := by
  have hn : u8 n < 256 := Nat.mod_lt _ (by omega)
  have hs : u8 s < 256 := Nat.mod_lt _ (by omega)
  have hu : u8 u < 256 := Nat.mod_lt _ (by omega)
  have h16 : ∀ x, x < 256 → u16 x = x := fun x hx => Nat.mod_eq_of_lt (by omega)
  show u16 ((u16 (u8 n) <<< 8) ||| (u16 (u8 s) <<< 4) ||| u16 (u8 u))
    = (u8 n <<< 8) ||| (u8 s <<< 4) ||| u8 u
  rw [h16 _ hn, h16 _ hs, h16 _ hu]
  exact Nat.mod_eq_of_lt (or_triple_lt _ _ _ hn hs hu)

/-- C15, as stated, fails: `UniverseDescriptor(0x8000)` has `universe15bit == 0x8000`
while `(net << 8) | (subnet << 4) | universe` is 0. -/
theorem C15_combined_counterexample :
    (UniverseDescriptor.ofUniverse15bit 0x8000).universe15bit = 0x8000 ∧
      (UniverseDescriptor.ofUniverse15bit 0x8000).combined = 0 ∧
      (UniverseDescriptor.ofUniverse15bit 0x8000).universe15bit
        ≠ (UniverseDescriptor.ofUniverse15bit 0x8000).combined := by
  decide

/-- C15, amended: `universe15bit == (net << 8) | (subnet << 4) | universe` holds for
`UniverseDescriptor(v)` with every `v <= 32767`, for `UniverseDescriptor(n, s, u)` with
every triple of bytes, and for the default constructor. -/
theorem C15_combined_invariant :
    (∀ v : Nat, v ≤ 32767 →
        (UniverseDescriptor.ofUniverse15bit v).universe15bit
          = (UniverseDescriptor.ofUniverse15bit v).combined) ∧
      (∀ n s u : Nat, n < 256 → s < 256 → u < 256 →
        (UniverseDescriptor.ofTriple n s u).universe15bit
          = (UniverseDescriptor.ofTriple n s u).combined) ∧
      UniverseDescriptor.init.universe15bit = UniverseDescriptor.init.combined := by
  refine ⟨?_, fun n s u _ _ _ => ofTriple_combined n s u, rfl⟩
  intro v hv
  obtain ⟨hnet, hsub, huni, hcomb⟩ := ofUniverse15bit_fields v
  unfold UniverseDescriptor.combined
  rw [hnet, hsub, huni, hcomb, or_triple _ _ _ (by omega) (by omega)]
  omega

theorem C15_combined_invariant_witness :
    (0x0123 : Nat) ≤ 32767 ∧
      (UniverseDescriptor.ofUniverse15bit 0x0123).universe15bit
        = (UniverseDescriptor.ofUniverse15bit 0x0123).combined ∧
      ((200 : Nat) < 256 ∧ (17 : Nat) < 256 ∧ (255 : Nat) < 256) ∧
      (UniverseDescriptor.ofTriple 200 17 255).universe15bit
        = (UniverseDescriptor.ofTriple 200 17 255).combined :=
  ⟨by decide, C15_combined_invariant.1 0x0123 (by decide), by decide,
    C15_combined_invariant.2.1 200 17 255 (by decide) (by decide) (by decide)⟩

/-- C16: on the valid range the two address constructors are mutually inverse: for
`n <= 127`, `s <= 15`, `u <= 15` the address `UniverseDescriptor(UniverseDescriptor(n, s,
u).universe15bit)` has net `n`, subnet `s` and universe `u`; and for `v <= 32767`, with
`d = UniverseDescriptor(v)`, `UniverseDescriptor(d.net, d.subnet, d.universe)` has
`universe15bit == v`. -/
theorem C16_constructors_inverse :
    (∀ n s u : Nat, n ≤ 127 → s ≤ 15 → u ≤ 15 →
        (UniverseDescriptor.ofUniverse15bit
            (UniverseDescriptor.ofTriple n s u).universe15bit).net = n ∧
          (UniverseDescriptor.ofUniverse15bit
            (UniverseDescriptor.ofTriple n s u).universe15bit).subnet = s ∧
          (UniverseDescriptor.ofUniverse15bit
            (UniverseDescriptor.ofTriple n s u).universe15bit).universe_ = u) ∧
      (∀ v : Nat, v ≤ 32767 →
        (UniverseDescriptor.ofTriple (UniverseDescriptor.ofUniverse15bit v).net
          (UniverseDescriptor.ofUniverse15bit v).subnet
          (UniverseDescriptor.ofUniverse15bit v).universe_).universe15bit = v) := by
  constructor
  · intro n s u hn hs hu
    obtain ⟨hnet, hsub, huni, -⟩ :=
      ofUniverse15bit_fields (UniverseDescriptor.ofTriple n s u).universe15bit
    rw [hnet, hsub, huni, ofTriple_universe15bit n s u hn hs hu]
    omega
  · intro v hv
    obtain ⟨hnet, hsub, huni, -⟩ := ofUniverse15bit_fields v
    rw [hnet, hsub, huni, ofTriple_universe15bit _ _ _ (by omega) (by omega) (by omega)]
    omega

theorem C16_constructors_inverse_witness :
    ((1 : Nat) ≤ 127 ∧ (2 : Nat) ≤ 15 ∧ (7 : Nat) ≤ 15) ∧
      (UniverseDescriptor.ofUniverse15bit
        (UniverseDescriptor.ofTriple 1 2 7).universe15bit).net = 1 ∧
      (0x7FFF : Nat) ≤ 32767 ∧
      (UniverseDescriptor.ofTriple (UniverseDescriptor.ofUniverse15bit 0x7FFF).net
        (UniverseDescriptor.ofUniverse15bit 0x7FFF).subnet
        (UniverseDescriptor.ofUniverse15bit 0x7FFF).universe_).universe15bit = 0x7FFF :=
  ⟨by decide, (C16_constructors_inverse.1 1 2 7 (by decide) (by decide) (by decide)).1,
    by decide, C16_constructors_inverse.2 0x7FFF (by decide)⟩

/-- C17, as stated, fails: `UniverseDescriptor(255, 255, 255)` has net 255, subnet 255 and
universe 255, a `PortConfiguration` built from it has `sw_in == 255` and `sw_out == 255`,
and `UniverseDescriptor(0xFFFF)` has `universe15bit == 65535`. -/
theorem C17_unmasked_counterexample :
    (UniverseDescriptor.ofTriple 255 255 255).net = 255 ∧
      (UniverseDescriptor.ofTriple 255 255 255).subnet = 255 ∧
      (UniverseDescriptor.ofTriple 255 255 255).universe_ = 255 ∧
      ¬ (UniverseDescriptor.ofTriple 255 255 255).net ≤ 127 ∧
      (PortConfiguration.ofUniverse 0 (UniverseDescriptor.ofTriple 255 255 255) true
        true).sw_in = 255 ∧
      (PortConfiguration.ofUniverse 0 (UniverseDescriptor.ofTriple 255 255 255) true
        true).sw_out = 255 ∧
      (UniverseDescriptor.ofUniverse15bit 0xFFFF).universe15bit = 65535 ∧
      ¬ (UniverseDescriptor.ofUniverse15bit 0xFFFF).universe15bit ≤ 32767 := by
  decide

/-- C17, amended: `UniverseDescriptor(v)` yields `net <= 127`, `subnet <= 15` and
`universe <= 15` for every 16-bit `v`, and `universe15bit <= 32767` when `v <= 32767`;
`UniverseDescriptor(n, s, u)` yields `net <= 127`, `subnet <= 15`, `universe <= 15` and
`universe15bit <= 32767` when `n <= 127`, `s <= 15` and `u <= 15`; a `PortConfiguration`
built from either has `sw_in <= 15` and `sw_out <= 15`. -/
theorem C17_address_bounds :
    (∀ v : Nat, v < 65536 →
        (UniverseDescriptor.ofUniverse15bit v).net ≤ 127 ∧
          (UniverseDescriptor.ofUniverse15bit v).subnet ≤ 15 ∧
          (UniverseDescriptor.ofUniverse15bit v).universe_ ≤ 15 ∧
          (v ≤ 32767 → (UniverseDescriptor.ofUniverse15bit v).universe15bit ≤ 32767) ∧
          ∀ (idx : Nat) (inp out : Bool),
            (PortConfiguration.ofUniverse idx (UniverseDescriptor.ofUniverse15bit v) inp
                out).sw_in ≤ 15 ∧
              (PortConfiguration.ofUniverse idx (UniverseDescriptor.ofUniverse15bit v) inp
                out).sw_out ≤ 15) ∧
      (∀ n s u : Nat, n ≤ 127 → s ≤ 15 → u ≤ 15 →
        (UniverseDescriptor.ofTriple n s u).net ≤ 127 ∧
          (UniverseDescriptor.ofTriple n s u).subnet ≤ 15 ∧
          (UniverseDescriptor.ofTriple n s u).universe_ ≤ 15 ∧
          (UniverseDescriptor.ofTriple n s u).universe15bit ≤ 32767 ∧
          ∀ (idx : Nat) (inp out : Bool),
            (PortConfiguration.ofUniverse idx (UniverseDescriptor.ofTriple n s u) inp
                out).sw_in ≤ 15 ∧
              (PortConfiguration.ofUniverse idx (UniverseDescriptor.ofTriple n s u) inp
                out).sw_out ≤ 15) := by
  constructor
  · intro v hv
    obtain ⟨hnet, hsub, huni, hcomb⟩ := ofUniverse15bit_fields v
    have h3 : (UniverseDescriptor.ofUniverse15bit v).universe_ ≤ 15 := by rw [huni]; omega
    refine ⟨by rw [hnet]; omega, by rw [hsub]; omega, h3, fun h => by rw [hcomb]; omega, ?_⟩
    intro idx inp out
    exact ⟨h3, h3⟩
  · intro n s u hn hs hu
    have h1 : (UniverseDescriptor.ofTriple n s u).net = n := u8_of_lt n (by omega)
    have h2 : (UniverseDescriptor.ofTriple n s u).subnet = s := u8_of_lt s (by omega)
    have h3 : (UniverseDescriptor.ofTriple n s u).universe_ = u := u8_of_lt u (by omega)
    have h3' : (UniverseDescriptor.ofTriple n s u).universe_ ≤ 15 := by rw [h3]; exact hu
    refine ⟨by rw [h1]; exact hn, by rw [h2]; exact hs, h3', ?_, ?_⟩
    · rw [ofTriple_universe15bit n s u hn hs hu]
      omega
    · intro idx inp out
      exact ⟨h3', h3'⟩

theorem C17_address_bounds_witness :
    (0xFFFF : Nat) < 65536 ∧ (UniverseDescriptor.ofUniverse15bit 0xFFFF).net ≤ 127 ∧
      (0x7FFF : Nat) ≤ 32767 ∧ (UniverseDescriptor.ofUniverse15bit 0x7FFF).universe15bit ≤ 32767 ∧
      ((127 : Nat) ≤ 127 ∧ (15 : Nat) ≤ 15 ∧ (15 : Nat) ≤ 15) ∧
      (UniverseDescriptor.ofTriple 127 15 15).universe15bit ≤ 32767 :=
  ⟨by decide, (C17_address_bounds.1 0xFFFF (by decide)).1, by decide,
    (C17_address_bounds.1 0x7FFF (by decide)).2.2.2.1 (by decide), by decide,
    (C17_address_bounds.2 127 15 15 (by decide) (by decide) (by decide)).2.2.2.1⟩

/-- C20: on valid addresses (`n <= 127`, `s <= 15`, `u <= 15`) `operator==` holds exactly
when the triples `(net, subnet, universe)` are equal and `operator<` exactly when the
first triple is lexicographically smaller, so ascending order by `universe15bit` is
ascending order by `(net, subnet, universe)`. -/
theorem C20_comparison_agrees_with_triple (n1 s1 u1 n2 s2 u2 : Nat)
    (hn1 : n1 ≤ 127) (hs1 : s1 ≤ 15) (hu1 : u1 ≤ 15)
    (hn2 : n2 ≤ 127) (hs2 : s2 ≤ 15) (hu2 : u2 ≤ 15) :
    ((UniverseDescriptor.ofTriple n1 s1 u1).eq (UniverseDescriptor.ofTriple n2 s2 u2) = true
        ↔ (n1, s1, u1) = (n2, s2, u2)) ∧
      ((UniverseDescriptor.ofTriple n1 s1 u1).lt (UniverseDescriptor.ofTriple n2 s2 u2) = true
        ↔ tripleLt n1 s1 u1 n2 s2 u2) ∧
      ((UniverseDescriptor.ofTriple n1 s1 u1).universe15bit
          < (UniverseDescriptor.ofTriple n2 s2 u2).universe15bit
        ↔ tripleLt (UniverseDescriptor.ofTriple n1 s1 u1).net
            (UniverseDescriptor.ofTriple n1 s1 u1).subnet
            (UniverseDescriptor.ofTriple n1 s1 u1).universe_
            (UniverseDescriptor.ofTriple n2 s2 u2).net
            (UniverseDescriptor.ofTriple n2 s2 u2).subnet
            (UniverseDescriptor.ofTriple n2 s2 u2).universe_) := by
  have e1 := ofTriple_universe15bit n1 s1 u1 hn1 hs1 hu1
  have e2 := ofTriple_universe15bit n2 s2 u2 hn2 hs2 hu2
  have f1 : (UniverseDescriptor.ofTriple n1 s1 u1).net = n1 := u8_of_lt n1 (by omega)
  have f2 : (UniverseDescriptor.ofTriple n1 s1 u1).subnet = s1 := u8_of_lt s1 (by omega)
  have f3 : (UniverseDescriptor.ofTriple n1 s1 u1).universe_ = u1 := u8_of_lt u1 (by omega)
  have f4 : (UniverseDescriptor.ofTriple n2 s2 u2).net = n2 := u8_of_lt n2 (by omega)
  have f5 : (UniverseDescriptor.ofTriple n2 s2 u2).subnet = s2 := u8_of_lt s2 (by omega)
  have f6 : (UniverseDescriptor.ofTriple n2 s2 u2).universe_ = u2 := u8_of_lt u2 (by omega)
  have hlt : n1 * 256 + s1 * 16 + u1 < n2 * 256 + s2 * 16 + u2 ↔ tripleLt n1 s1 u1 n2 s2 u2 := by
    unfold tripleLt
    omega
  refine ⟨?_, ?_, ?_⟩
  · unfold UniverseDescriptor.eq
    rw [decide_eq_true_iff, e1, e2]
    simp only [Prod.mk.injEq]
    omega
  · unfold UniverseDescriptor.lt
    rw [decide_eq_true_iff, e1, e2]
    exact hlt
  · rw [e1, e2, f1, f2, f3, f4, f5, f6]
    exact hlt

theorem C20_comparison_agrees_with_triple_witness :
    ((1 : Nat) ≤ 127 ∧ (15 : Nat) ≤ 15 ∧ (15 : Nat) ≤ 15 ∧ (2 : Nat) ≤ 127 ∧ (0 : Nat) ≤ 15) ∧
      (UniverseDescriptor.ofTriple 1 15 15).lt (UniverseDescriptor.ofTriple 2 0 0) = true ∧
      tripleLt 1 15 15 2 0 0 := by
  have h := C20_comparison_agrees_with_triple 1 15 15 2 0 0 (by decide) (by decide)
    (by decide) (by decide) (by decide) (by decide)
  exact ⟨by decide, h.2.1.2 (by decide), by decide⟩

end art_net

/-! ## The port allocation: lemmas and claims -/

namespace art_net

namespace UniverseRegistry

theorem length_filterMap_of_forall_some {α β : Type} (f : α → Option β) (l : List α)
    (h : ∀ x ∈ l, ∃ y, f x = some y) : (l.filterMap f).length = l.length := by
  induction l with
  | nil => rfl
  | cons a t ih =>
    obtain ⟨y, hy⟩ := h a (List.mem_cons_self a t)
    rw [List.filterMap_cons_some hy, List.length_cons, List.length_cons,
      ih (fun x hx => h x (List.mem_cons_of_mem a hx))]

theorem takeRound_length (groups : List (List BlockKey)) :
    (takeRound groups).length + ((groups.map List.tail).map List.length).sum
      = (groups.map List.length).sum := by
  induction groups with
  | nil => rfl
  | cons g t ih =>
    cases g with
    | nil =>
      simp only [takeRound, List.filterMap_cons, List.head?_nil, List.map_cons, List.tail_nil,
        List.length_nil, List.sum_cons, Nat.zero_add] at ih ⊢
      exact ih
    | cons a s =>
      simp only [takeRound, List.filterMap_cons, List.head?_cons, List.map_cons,
        List.tail_cons, List.length_cons, List.sum_cons] at ih ⊢
      omega

theorem rotation_length (fuel : Nat) :
    ∀ groups : List (List BlockKey), (∀ g ∈ groups, g.length ≤ fuel) →
      (rotation fuel groups).length = (groups.map List.length).sum := by
  induction fuel with
  | zero =>
    intro groups h
    have hz : ∀ x ∈ groups.map List.length, x = 0 := by
      intro x hx
      obtain ⟨g, hg, rfl⟩ := List.mem_map.1 hx
      exact Nat.le_zero.1 (h g hg)
    rw [List.sum_eq_zero hz]
    rfl
  | succ n ih =>
    intro groups h
    have htail : ∀ g ∈ groups.map List.tail, g.length ≤ n := by
      intro g hg
      obtain ⟨g0, hg0, rfl⟩ := List.mem_map.1 hg
      have := h g0 hg0
      rw [List.length_tail]
      omega
    show (takeRound groups ++ rotation n (groups.map List.tail)).length = _
    rw [List.length_append, ih _ htail, takeRound_length]

theorem mem_rotation (fuel : Nat) :
    ∀ (groups : List (List BlockKey)) (k : BlockKey), k ∈ rotation fuel groups →
      ∃ g ∈ groups, k ∈ g := by
  induction fuel with
  | zero => intro groups k h; cases h
  | succ n ih =>
    intro groups k h
    have h' : k ∈ takeRound groups ++ rotation n (groups.map List.tail) := h
    rcases List.mem_append.1 h' with h1 | h1
    · obtain ⟨g, hg, hk⟩ := List.mem_filterMap.1 h1
      exact ⟨g, hg, List.mem_of_mem_head? hk⟩
    · obtain ⟨g, hg, hk⟩ := ih _ k h1
      obtain ⟨g0, hg0, rfl⟩ := List.mem_map.1 hg
      exact ⟨g0, hg0, List.mem_of_mem_tail hk⟩

theorem parentBlocks_length (keys : List BlockKey) (p : ParentKey) :
    (parentBlocks keys p).length
      = @List.count ParentKey instBEqOfDecidableEq p (keys.map BlockKey.parent) := by
  show (keys.filter _).length = List.countP _ (keys.map _)
  rw [List.countP_map, List.countP_eq_length_filter]
  rfl

theorem groups_total (keys : List BlockKey) :
    (((parents keys).map (parentBlocks keys)).map List.length).sum = keys.length := by
  have hperm : List.Perm (parents keys) ((keys.map BlockKey.parent).dedup) := List.perm_insertionSort _ _
  rw [List.map_map]
  have h1 := (hperm.map (List.length ∘ parentBlocks keys)).sum_eq
  rw [h1]
  have h2 : (keys.map BlockKey.parent).dedup.map (List.length ∘ parentBlocks keys)
      = (keys.map BlockKey.parent).dedup.map
          (fun p => @List.count ParentKey instBEqOfDecidableEq p (keys.map BlockKey.parent)) := by
    apply List.map_congr_left
    intro p _
    exact parentBlocks_length keys p
  rw [h2]
  have h3 := List.sum_map_count_dedup_eq_length (keys.map BlockKey.parent)
  rw [List.length_map] at h3
  exact h3

theorem parentBlocks_length_le (keys : List BlockKey) (p : ParentKey) :
    (parentBlocks keys p).length ≤ keys.length :=
  List.length_filter_le _ _

theorem mem_selectBlocks (keys : List BlockKey) (k : BlockKey) (h : k ∈ selectBlocks keys) :
    k ∈ keys := by
  unfold selectBlocks at h
  split at h
  · exact h
  · obtain ⟨g, hg, hk⟩ := mem_rotation _ _ k (List.mem_of_mem_take h)
    obtain ⟨p, _, rfl⟩ := List.mem_map.1 hg
    exact (List.mem_filter.1 hk).1

theorem selectBlocks_length (keys : List BlockKey) :
    (selectBlocks keys).length = min 4 keys.length := by
  unfold selectBlocks
  split
  · omega
  · have hfuel : ∀ g ∈ (parents keys).map (parentBlocks keys), g.length ≤ keys.length := by
      intro g hg
      obtain ⟨p, _, rfl⟩ := List.mem_map.1 hg
      exact parentBlocks_length_le keys p
    rw [List.length_take, rotation_length _ _ hfuel, groups_total]

theorem mem_blockKeys (snap : List UniverseDescriptor) (k : BlockKey) :
    k ∈ blockKeys snap ↔ ∃ a ∈ snap, blockKey a = k := by
  unfold blockKeys
  rw [List.mem_insertionSort, List.mem_dedup, List.mem_map]

theorem representative_some (snap : List UniverseDescriptor) (k : BlockKey)
    (h : k ∈ blockKeys snap) : ∃ a, representative snap k = some a := by
  obtain ⟨a, ha, hk⟩ := (mem_blockKeys snap k).1 h
  have : (representative snap k).isSome := by
    unfold representative
    rw [List.find?_isSome]
    exact ⟨a, ha, by simp [hk]⟩
  exact Option.isSome_iff_exists.1 this

theorem representative_spec (snap : List UniverseDescriptor) (k : BlockKey)
    (a : UniverseDescriptor) (h : representative snap k = some a) :
    a ∈ snap ∧ blockKey a = k := by
  unfold representative at h
  refine ⟨List.mem_of_find?_eq_some h, ?_⟩
  have := List.find?_some h
  simpa using this

theorem slots_length (snap : List UniverseDescriptor) :
    (slots snap).length = min 4 (blockKeys snap).length := by
  unfold slots
  rw [length_filterMap_of_forall_some, selectBlocks_length]
  intro k hk
  exact representative_some snap k (mem_selectBlocks _ k hk)

theorem snapshot_perm (reg : UniverseRegistry) : List.Perm reg.snapshot reg.universes :=
  List.perm_insertionSort _ _

theorem blockKeys_length (reg : UniverseRegistry) :
    (blockKeys reg.snapshot).length = distinctBlockCount reg := by
  unfold blockKeys distinctBlockCount
  rw [List.length_insertionSort]
  exact (((snapshot_perm reg).map blockKey).dedup).length_eq

theorem generatePortMapping_of_ne (reg : UniverseRegistry) (h : reg.universes ≠ []) :
    (generatePortMapping reg).num_ports = (slots reg.snapshot).length ∧
      (generatePortMapping reg).has_subscriptions = true ∧
      ∀ i : Fin 4, (generatePortMapping reg).ports i =
        match (slots reg.snapshot)[i.val]? with
        | some address =>
          PortConfiguration.ofUniverse i.val address reg.input_enabled reg.output_enabled
        | none => PortConfiguration.init := by
  have hs : reg.snapshot ≠ [] := by
    intro e
    have := (snapshot_perm reg).length_eq
    rw [e] at this
    exact h (List.length_eq_zero.1 this.symm)
  unfold generatePortMapping
  cases hsnap : reg.snapshot with
  | nil => exact absurd hsnap hs
  | cons a rest => exact ⟨rfl, rfl, fun i => rfl⟩

/-- C2 (against the allocation modelled from the spec): for every non-empty registry,
`generatePortMapping` returns `num_ports` equal to `min(4, distinctBlockCount)`, the number
of distinct `(net, subnet, universe / 4)` keys among the registered addresses capped
at 4. -/
theorem C2_port_count (reg : UniverseRegistry) (h : reg.universes ≠ []) :
    (generatePortMapping reg).num_ports = min 4 (distinctBlockCount reg) := by
  rw [(generatePortMapping_of_ne reg h).1, slots_length, blockKeys_length]

set_option maxRecDepth 100000 in
theorem C2_port_count_witness :
    registrySingleSubnet.universes ≠ [] ∧
      (generatePortMapping registrySingleSubnet).num_ports = 4 ∧
      registrySparse.universes ≠ [] ∧
      (generatePortMapping registrySparse).num_ports = 3 := by
  have h1 : registrySingleSubnet.universes ≠ [] := by decide
  have h2 : registrySparse.universes ≠ [] := by decide
  exact ⟨h1, (C2_port_count registrySingleSubnet h1).trans (by decide), h2,
    (C2_port_count registrySparse h2).trans (by decide)⟩

theorem parents_length (reg : UniverseRegistry) :
    (parents (blockKeys reg.snapshot)).length = distinctParentCount reg := by
  unfold parents distinctParentCount
  rw [List.length_insertionSort]
  apply List.Perm.length_eq
  rw [List.perm_ext_iff_of_nodup (List.nodup_dedup _) (List.nodup_dedup _)]
  intro p
  simp only [List.mem_dedup, List.mem_map, mem_blockKeys]
  constructor
  · rintro ⟨k, ⟨a, ha, rfl⟩, rfl⟩
    exact ⟨a, (snapshot_perm reg).mem_iff.1 ha, rfl⟩
  · rintro ⟨a, ha, rfl⟩
    exact ⟨blockKey a, ⟨a, (snapshot_perm reg).mem_iff.2 ha, rfl⟩, rfl⟩

theorem mem_take_append_left {α : Type} (A B : List α) (n : Nat) (h : A.length ≤ n) (x : α)
    (hx : x ∈ A) : x ∈ (A ++ B).take n := by
  rw [List.take_append_eq_append_take, List.take_of_length_le h]
  exact List.mem_append_left _ hx

/-- C3 (against the allocation modelled from the spec): when the registered universes
have more than 4 distinct blocks and at most 4 distinct `(net, subnet)` parents, the
mapping returned by `generatePortMapping` has, for every parent present, a reported slot
whose address belongs to that parent. -/
theorem C3_every_parent_has_slot (reg : UniverseRegistry) (hblocks : 4 < distinctBlockCount reg)
    (hparents : distinctParentCount reg ≤ 4) (p : ParentKey)
    (hp : p ∈ reg.universes.map parentKey) :
    ∃ i : Fin 4, i.val < (generatePortMapping reg).num_ports ∧
      parentKey ((generatePortMapping reg).ports i).universe_ = p := by
  have hne : reg.universes ≠ [] := by
    intro e
    rw [e] at hp
    cases hp
  obtain ⟨hnum, -, hports⟩ := generatePortMapping_of_ne reg hne
  obtain ⟨a, ha, rfl⟩ := List.mem_map.1 hp
  have hasnap : a ∈ reg.snapshot := (snapshot_perm reg).mem_iff.2 ha
  have hkey : blockKey a ∈ blockKeys reg.snapshot := (mem_blockKeys _ _).2 ⟨a, hasnap, rfl⟩
  have hlen : 4 < (blockKeys reg.snapshot).length := by rw [blockKeys_length]; exact hblocks
  have hpar : parentKey a ∈ parents (blockKeys reg.snapshot) := by
    unfold parents
    rw [List.mem_insertionSort, List.mem_dedup, List.mem_map]
    exact ⟨blockKey a, hkey, rfl⟩
  -- the first block of the parent is taken in the first rotation
  have hgroup : blockKey a ∈ parentBlocks (blockKeys reg.snapshot) (parentKey a) := by
    unfold parentBlocks
    rw [List.mem_filter]
    exact ⟨hkey, by simp [BlockKey.parent, blockKey, parentKey]⟩
  obtain ⟨k0, t, hg⟩ : ∃ k0 t, parentBlocks (blockKeys reg.snapshot) (parentKey a) = k0 :: t := by
    cases hcase : parentBlocks (blockKeys reg.snapshot) (parentKey a) with
    | nil => rw [hcase] at hgroup; cases hgroup
    | cons k0 t => exact ⟨k0, t, rfl⟩
  have hk0 : k0 ∈ parentBlocks (blockKeys reg.snapshot) (parentKey a) := by
    rw [hg]; exact List.mem_cons_self _ _
  have hk0par : k0.parent = parentKey a := by
    have := (List.mem_filter.1 hk0).2
    simpa using this
  have hround : k0 ∈ takeRound ((parents (blockKeys reg.snapshot)).map
      (parentBlocks (blockKeys reg.snapshot))) := by
    unfold takeRound
    rw [List.mem_filterMap]
    exact ⟨_, List.mem_map.2 ⟨parentKey a, hpar, rfl⟩, by rw [hg]; rfl⟩
  have hroundlen : (takeRound ((parents (blockKeys reg.snapshot)).map
      (parentBlocks (blockKeys reg.snapshot)))).length ≤ 4 := by
    have h1 := List.length_filterMap_le List.head? ((parents (blockKeys reg.snapshot)).map
      (parentBlocks (blockKeys reg.snapshot)))
    rw [List.length_map, parents_length] at h1
    exact le_trans h1 hparents
  have hsel : k0 ∈ selectBlocks (blockKeys reg.snapshot) := by
    unfold selectBlocks
    rw [if_neg (by omega)]
    obtain ⟨n, hn⟩ : ∃ n, (blockKeys reg.snapshot).length = n + 1 :=
      ⟨(blockKeys reg.snapshot).length - 1, by omega⟩
    rw [hn]
    exact mem_take_append_left _ _ 4 hroundlen k0 hround
  obtain ⟨a0, ha0⟩ := representative_some reg.snapshot k0 (mem_selectBlocks _ k0 hsel)
  have ha0key : blockKey a0 = k0 := (representative_spec _ _ _ ha0).2
  have hslot : a0 ∈ slots reg.snapshot := by
    unfold slots
    rw [List.mem_filterMap]
    exact ⟨k0, hsel, ha0⟩
  obtain ⟨i, hi⟩ := List.mem_iff_getElem?.1 hslot
  have hilt : i < (slots reg.snapshot).length := by
    obtain ⟨h, -⟩ := List.getElem?_eq_some.1 hi
    exact h
  have hi4 : i < 4 := by
    have := slots_length reg.snapshot
    omega
  refine ⟨⟨i, hi4⟩, by rw [hnum]; exact hilt, ?_⟩
  rw [hports ⟨i, hi4⟩]
  simp only [hi]
  show parentKey a0 = parentKey a
  have : (blockKey a0).parent = parentKey a := by rw [ha0key, hk0par]
  exact this

set_option maxRecDepth 100000 in
theorem C3_every_parent_has_slot_witness :
    4 < distinctBlockCount registryCrossSubnet ∧
      distinctParentCount registryCrossSubnet ≤ 4 ∧
      ((0, 1) : ParentKey) ∈ registryCrossSubnet.universes.map parentKey ∧
      (generatePortMapping registryCrossSubnet).num_ports = 4 ∧
      ∃ i : Fin 4, i.val < (generatePortMapping registryCrossSubnet).num_ports ∧
        parentKey ((generatePortMapping registryCrossSubnet).ports i).universe_ = (0, 1) := by
  have h1 : 4 < distinctBlockCount registryCrossSubnet := by decide
  have h2 : distinctParentCount registryCrossSubnet ≤ 4 := by decide
  have h3 : ((0, 1) : ParentKey) ∈ registryCrossSubnet.universes.map parentKey := by decide
  exact ⟨h1, h2, h3, by decide, C3_every_parent_has_slot registryCrossSubnet h1 h2 (0, 1) h3⟩

/-- C4, as stated, fails in its general part: the default-constructed mapping has
`has_subscriptions == false` and `num_ports == 0`, not 1. -/
theorem C4_default_mapping_counterexample :
    PortMappingResult.init.has_subscriptions = false ∧ PortMappingResult.init.num_ports = 0 ∧
      PortMappingResult.init.num_ports ≠ 1 := by
  decide

/-- C4, amended (against the allocation modelled from the spec): for the empty registry
`generatePortMapping` returns `num_ports == 1`, a first slot with net 0, subnet 0,
universe 0 and `universe15bit == 0`, and `has_subscriptions == false`; every mapping
returned by `generatePortMapping` with `has_subscriptions == false` has `num_ports == 1`;
the default-constructed `PortMappingResult` has `has_subscriptions == false` and
`num_ports == 0`. -/
theorem C4_empty_registry_default (inp out : Bool) :
    (generatePortMapping (empty inp out)).num_ports = 1 ∧
      ((generatePortMapping (empty inp out)).ports 0).universe_
        = { net := 0, subnet := 0, universe_ := 0, universe15bit := 0 } ∧
      (generatePortMapping (empty inp out)).has_subscriptions = false ∧
      (∀ reg : UniverseRegistry, (generatePortMapping reg).has_subscriptions = false →
        (generatePortMapping reg).num_ports = 1) ∧
      PortMappingResult.init.has_subscriptions = false ∧
      PortMappingResult.init.num_ports = 0 := by
  refine ⟨rfl, rfl, rfl, ?_, rfl, rfl⟩
  intro reg h
  unfold generatePortMapping at h ⊢
  cases hsnap : reg.snapshot with
  | nil => rfl
  | cons a rest =>
    rw [hsnap] at h
    cases h

theorem C4_empty_registry_default_witness :
    (generatePortMapping (empty true true)).has_subscriptions = false ∧
      (generatePortMapping (empty true true)).num_ports = 1 :=
  ⟨(C4_empty_registry_default true true).2.2.1,
    (C4_empty_registry_default true true).2.2.2.1 (empty true true)
      (C4_empty_registry_default true true).2.2.1⟩

end UniverseRegistry

end art_net

